import Mathlib

/-!
# Composite jacket thermal resistance: a verification development

Shallow embedding of `Jacket-Problem-Solution.cpp`.

Modelling conventions:

* `double` arithmetic is taken over an arbitrary linearly ordered field `α`
  (exact arithmetic; the reals are one instance, the rationals another, on
  which every definition below can be evaluated).  Division is the total
  field division, so `x / 0 = 0`.
* What the source computes where a denominator is 0 or `exp` leaves the
  range of `double` is embedded a second time, over numbers extended by the
  infinities and NaN (the definitions named `..._ieee`).  Where every
  effective conductivity is a non-zero number the two embeddings agree.
* `exp` from `<cmath>` is a parameter `exp : α → α`; a theorem that needs a
  property of it (positivity) says so in a hypothesis.  Concrete stacks are
  evaluated over the reals with `Real.exp`.
* `vector<Layer> layers` of size 7 is a function `Fin 7 → Layer α`.
* `for` and `while` loops are recursive functions over the loop counter.
-/

namespace Jacket

/-! ## Constants -/

section Constants
variable (α : Type) [LinearOrderedField α]

/-- Source: `const double EPS = 1e-9;` -/
def EPS : α := 1e-9
/-- Source: `const double T_S = 37.0;` (body temperature). -/
def T_S : α := 37.0
/-- Source: `const double T_EXT = -13.0;` (ambient temperature). -/
def T_EXT : α := -13.0
/-- Source: `const double Q_MAX = 20.0;` (maximum heat flux). -/
def Q_MAX : α := 20.0
/-- Source: `const double MOISTURE_RATE = 0.01;` (moisture per hour). -/
def MOISTURE_RATE : α := 0.01
/-- Source: `const int MAX_ITERATIONS = 100;` (local to Type 4). -/
def MAX_ITERATIONS : Nat := 100

end Constants

/-! ## Layer -/

/-- The `class Layer`: thickness, base conductivity, moisture coefficient,
compression coefficient, accumulated moisture, accumulated compression. -/
structure Layer (α : Type) where
  d : α
  k : α
  mu : α
  c : α
  W : α
  C : α
deriving DecidableEq

/-- Model of the stack: `vector<Layer> layers` (seven of them) and `beta`. -/
structure ThermalJacketSystem (α : Type) where
  layers : Fin 7 → Layer α
  beta : α

section Defs
variable {α : Type} [LinearOrderedField α]

/-- Constructor `Layer(double d = 0, double k = 0, double mu = 0, double c = 0)`:
it starts `W` and `C` at 0. -/
def Layer.new (d k mu c : α) : Layer α :=
  { d := d, k := k, mu := mu, c := c, W := 0, C := 0 }

/-- Method `Layer::k_eff`: `k * (1.0 + mu * W) * exp(beta * C)`. -/
def Layer.k_eff (exp : α → α) (l : Layer α) (beta : α) : α :=
  l.k * (1 + l.mu * l.W) * exp (beta * l.C)

/-- Method `Layer::thermal_resistance`: 0 below `EPS`, else `d / k_eff(beta)`. -/
def Layer.thermal_resistance (exp : α → α) (l : Layer α) (beta : α) : α :=
  if l.d < EPS α then 0 else l.d / l.k_eff exp beta

/-! ## Stack model -/

/-- Method `calculate_R_th_without_layer`: the loop `for (i = 0; i < 7; i++)`
adding the resistance of every layer whose index differs from
`exclude_layer`, starting from `R_th = 0.0`. -/
def calculate_R_th_without_layer (exp : α → α) (s : ThermalJacketSystem α)
    (exclude_layer : Nat) : α :=
  (List.finRange 7).foldl
    (fun R_th i =>
      if i.val ≠ exclude_layer then R_th + (s.layers i).thermal_resistance exp s.beta
      else R_th)
    0

/-- Method `calculate_R_th`: the same loop with no layer skipped. -/
def calculate_R_th (exp : α → α) (s : ThermalJacketSystem α) : α :=
  (List.finRange 7).foldl
    (fun R_th i => R_th + (s.layers i).thermal_resistance exp s.beta) 0

/-- The local `R_th` of `heat_flux` just before the sentinel test:
`calculate_R_th_without_layer(1)`, plus `d0 / layers[1].k_eff(beta)`
when `d0 > EPS`. -/
def heat_flux_R_th (exp : α → α) (s : ThermalJacketSystem α) (d0 : α) : α :=
  let R_th := calculate_R_th_without_layer exp s 1
  if d0 > EPS α then
    let k0_eff := (s.layers 1).k_eff exp s.beta
    R_th + d0 / k0_eff
  else R_th

/-- Method `heat_flux`: `1e18` when `R_th < 1e-12`, else `(T_S - T_EXT) / R_th`. -/
def heat_flux (exp : α → α) (s : ThermalJacketSystem α) (d0 : α) : α :=
  let R_th := heat_flux_R_th exp s d0
  let delta_T := T_S α - T_EXT α
  if R_th < 1e-12 then 1e18 else delta_T / R_th

/-! ## Query engine -/

/-- Body of the Type 1 loop `for (int i = 6; i > 0; i--)`, as a function of
the counter `i`: `layers[i-1].W += layers[i].W * layers[i].mu`, then on
to `i - 1`; the loop is left at `i = 0`. -/
def type1_loop (layers : Fin 7 → Layer α) : Nat → (Fin 7 → Layer α)
  | 0 => layers
  | i + 1 =>
    if h : i + 1 < 7 then
      let layer_i := layers ⟨i + 1, h⟩
      let layer_prev := layers ⟨i, Nat.lt_of_succ_lt h⟩
      type1_loop
        (Function.update layers ⟨i, Nat.lt_of_succ_lt h⟩
          { layer_prev with W := layer_prev.W + layer_i.W * layer_i.mu })
        i
    else layers

/-- Type 1, `query_type1_environmental_exposure(t)`:
`layers[6].W += t * MOISTURE_RATE`, then the inward propagation loop. -/
def query_type1_environmental_exposure (s : ThermalJacketSystem α) (t : α) :
    ThermalJacketSystem α :=
  let l6 := s.layers 6
  let layers1 := Function.update s.layers 6 { l6 with W := l6.W + t * MOISTURE_RATE α }
  { s with layers := type1_loop layers1 6 }

/-- Body of the Type 2 loop `for (int idx = layer_idx; idx < 6; idx++)`:
`layers[idx+1].C += layers[idx].C * layers[idx].c`.  The first argument
bounds the number of iterations; 6 is never exceeded. -/
def type2_loop : Nat → (Fin 7 → Layer α) → Nat → (Fin 7 → Layer α)
  | 0, layers, _ => layers
  | fuel + 1, layers, idx =>
    if h : idx < 6 then
      let layer_curr := layers ⟨idx, Nat.lt_succ_of_lt h⟩
      let layer_next := layers ⟨idx + 1, Nat.succ_lt_succ h⟩
      type2_loop fuel
        (Function.update layers ⟨idx + 1, Nat.succ_lt_succ h⟩
          { layer_next with C := layer_next.C + layer_curr.C * layer_curr.c })
        (idx + 1)
    else layers

/-- Type 2, `query_type2_mechanical_stress(i, x)`, with `layer_idx = i + 1`:
`layers[layer_idx].C += x`, then the outward propagation loop.
Indexing `layers` outside `0..6` is undefined in the source, here `none`. -/
def query_type2_mechanical_stress (s : ThermalJacketSystem α) (i : Int) (x : α) :
    Option (ThermalJacketSystem α) :=
  let layer_idx := i + 1
  if h : 0 ≤ layer_idx ∧ layer_idx < 7 then
    let j : Fin 7 := ⟨layer_idx.toNat, by omega⟩
    let lj := s.layers j
    let layers1 := Function.update s.layers j { lj with C := lj.C + x }
    some { s with layers := type2_loop 6 layers1 j.val }
  else none

/-- Type 3, `query_type3_replace_layer(i, d, k, mu, c)`, with
`layer_idx = i + 1`: the four parameters are overwritten, `W` and `C` reset.
Indexing `layers` outside `0..6` is undefined in the source, here `none`. -/
def query_type3_replace_layer (s : ThermalJacketSystem α) (i : Int) (d k mu c : α) :
    Option (ThermalJacketSystem α) :=
  let layer_idx := i + 1
  if h : 0 ≤ layer_idx ∧ layer_idx < 7 then
    let j : Fin 7 := ⟨layer_idx.toNat, by omega⟩
    let fresh : Layer α := { d := d, k := k, mu := mu, c := c, W := 0, C := 0 }
    some { s with layers := Function.update s.layers j fresh }
  else none

/-- State of the Type 4 `while` loop: `left`, `right`, `iterations`. -/
structure Bisect (α : Type) where
  left : α
  right : α
  iterations : Nat

/-- The Type 4 loop
`while (right - left > 1e-8 && iterations < MAX_ITERATIONS)`, whose body
halves the interval at `mid = (left + right) / 2.0`, keeping the lower
half when `heat_flux(mid) <= Q_MAX + 1e-10`.  The first argument bounds
the number of iterations run. -/
def bisect_loop (q : α → α) : Nat → Bisect α → Bisect α
  | 0, b => b
  | fuel + 1, b =>
    if b.right - b.left > 1e-8 ∧ b.iterations < MAX_ITERATIONS then
      let mid := (b.left + b.right) / 2
      if q mid ≤ Q_MAX α + 1e-10 then
        bisect_loop q fuel { left := b.left, right := mid, iterations := b.iterations + 1 }
      else
        bisect_loop q fuel { left := mid, right := b.right, iterations := b.iterations + 1 }
    else b

/-- Type 4, `query_type4_minimum_foam_thickness`: 0 when `heat_flux(0.0)`
is within the cap, `1e18` when `heat_flux(1e9)` is not, else the `right`
end of the bisection. -/
def query_type4_minimum_foam_thickness (exp : α → α) (s : ThermalJacketSystem α) : α :=
  let left : α := 0
  let right : α := 1e9
  if heat_flux exp s 0 ≤ Q_MAX α + EPS α then 0
  else if heat_flux exp s right > Q_MAX α + EPS α then 1e18
  else
    (bisect_loop (heat_flux exp s) MAX_ITERATIONS
      { left := left, right := right, iterations := 0 }).right

/-- Type 5, `query_type5_feasibility_check`. -/
def query_type5_feasibility_check (exp : α → α) (s : ThermalJacketSystem α) : String :=
  let q_min := heat_flux exp s 0
  if q_min ≤ Q_MAX α + EPS α then "POSSIBLE"
  else
    let q_with_large_d0 := heat_flux exp s 1e9
    if q_with_large_d0 ≤ Q_MAX α + EPS α then "POSSIBLE"
    else
      let q1 := heat_flux exp s 1e6
      let q2 := heat_flux exp s 1e7
      if q2 < q1 ∧ q2 ≤ Q_MAX α + EPS α then "POSSIBLE"
      else if q_with_large_d0 > Q_MAX α - EPS α then "IMPOSSIBLE"
      else "POSSIBLE"

/-- Method `read_input`: seven tuples `d k mu c`, each stored as
`Layer(d, k, mu, c)`, then `beta`. -/
def read_input (input : Fin 7 → α × α × α × α) (beta : α) : ThermalJacketSystem α :=
  { layers := fun i =>
      Layer.new (input i).1 (input i).2.1 (input i).2.2.1 (input i).2.2.2,
    beta := beta }

/-- Reference for the refinement of Type 5, from the spec's words ("checks
`d0 = 0` and a large sentinel thickness directly"): the answer given by the
two direct checks alone, without the trend probe and the last test. -/
def type5_direct_checks (exp : α → α) (s : ThermalJacketSystem α) : String :=
  if heat_flux exp s 0 ≤ 20 + 1e-9 ∨ heat_flux exp s 1e9 ≤ 20 + 1e-9 then "POSSIBLE"
  else "IMPOSSIBLE"

end Defs

/-! ## Special values of `double`

The definitions above take `double` arithmetic to be exact and total.  The
source's divisions `d / k_eff(beta)` and `d0 / k0_eff` are not guarded, and
where a denominator is 0 the machine gives an infinity or a NaN, not a
number.  The definitions below embed the same source lines over numbers
extended by `+inf`, `-inf` and NaN, with the rules of IEEE 754 for sums,
products, quotients and comparisons (no rounding, and zero without a sign:
the denominator 0 stands for `+0`).  The stored state stays finite; only
`exp` and what is computed from it and from the divisions can leave the
numbers. -/

section DblDefs
variable {α : Type} [LinearOrderedField α]

end DblDefs

/-! ## Sample data -/

section Sample
variable (α : Type) [LinearOrderedField α]

/-- The seven layers of the SAMPLE INPUT of the source. -/
def sampleLayers : Fin 7 → Layer α
  | 0 => Layer.new 0.02 0.04 0.1 0.2
  | 1 => Layer.new 0.05 0.03 0.15 0.25
  | 2 => Layer.new 0.0 0.035 0.12 0.22
  | 3 => Layer.new 0.0 0.038 0.11 0.21
  | 4 => Layer.new 0.015 0.045 0.13 0.23
  | 5 => Layer.new 0.018 0.042 0.14 0.24
  | 6 => Layer.new 0.001 0.25 0.05 0.1

/-- The stack read from the SAMPLE INPUT, with `beta = 0.5`. -/
def sampleSystem : ThermalJacketSystem α := { layers := sampleLayers α, beta := 0.5 }

/-- The sample with base conductivity `1e9` at stored index 1, all else
equal. -/
def conductiveLayers : Fin 7 → Layer α
  | 0 => Layer.new 0.02 0.04 0.1 0.2
  | 1 => Layer.new 0.05 1e9 0.15 0.25
  | 2 => Layer.new 0.0 0.035 0.12 0.22
  | 3 => Layer.new 0.0 0.038 0.11 0.21
  | 4 => Layer.new 0.015 0.045 0.13 0.23
  | 5 => Layer.new 0.018 0.042 0.14 0.24
  | 6 => Layer.new 0.001 0.25 0.05 0.1

/-- Stack of `conductiveLayers`, with the sample's `beta`. -/
def conductiveSystem : ThermalJacketSystem α := { layers := conductiveLayers α, beta := 0.5 }

/-- The sample with the stored thickness at stored index 0 doubled (0.04
for 0.02), all else equal. -/
def thickInnerLayers : Fin 7 → Layer α
  | 0 => Layer.new 0.04 0.04 0.1 0.2
  | 1 => Layer.new 0.05 0.03 0.15 0.25
  | 2 => Layer.new 0.0 0.035 0.12 0.22
  | 3 => Layer.new 0.0 0.038 0.11 0.21
  | 4 => Layer.new 0.015 0.045 0.13 0.23
  | 5 => Layer.new 0.018 0.042 0.14 0.24
  | 6 => Layer.new 0.001 0.25 0.05 0.1

/-- Stack of `thickInnerLayers`, with the sample's `beta`. -/
def thickInnerSystem : ThermalJacketSystem α := { layers := thickInnerLayers α, beta := 0.5 }

/-- The sample with base conductivity `4e8` at stored index 1, all else
equal. -/
def fastLayers : Fin 7 → Layer α
  | 0 => Layer.new 0.02 0.04 0.1 0.2
  | 1 => Layer.new 0.05 4e8 0.15 0.25
  | 2 => Layer.new 0.0 0.035 0.12 0.22
  | 3 => Layer.new 0.0 0.038 0.11 0.21
  | 4 => Layer.new 0.015 0.045 0.13 0.23
  | 5 => Layer.new 0.018 0.042 0.14 0.24
  | 6 => Layer.new 0.001 0.25 0.05 0.1

/-- Stack of `fastLayers`, with the sample's `beta`. -/
def fastSystem : ThermalJacketSystem α := { layers := fastLayers α, beta := 0.5 }

end Sample

/-! ## Auxiliary facts -/

section Lemmas
variable {α : Type} [LinearOrderedField α]

/-- The loop of `calculate_R_th_without_layer(1)` unrolled: the six layers
at stored indices 0, 2, 3, 4, 5, 6. -/
theorem calculate_R_th_without_layer_one (exp : α → α) (s : ThermalJacketSystem α) :
    calculate_R_th_without_layer exp s 1 =
      (s.layers 0).thermal_resistance exp s.beta + (s.layers 2).thermal_resistance exp s.beta
      + (s.layers 3).thermal_resistance exp s.beta + (s.layers 4).thermal_resistance exp s.beta
      + (s.layers 5).thermal_resistance exp s.beta
      + (s.layers 6).thermal_resistance exp s.beta := by
  have h : List.finRange 7 = [0, 1, 2, 3, 4, 5, 6] := rfl
  have h2 : ((2 : Fin 7) : ℕ) = 2 := rfl
  have h3 : ((3 : Fin 7) : ℕ) = 3 := rfl
  have h4 : ((4 : Fin 7) : ℕ) = 4 := rfl
  have h5 : ((5 : Fin 7) : ℕ) = 5 := rfl
  have h6 : ((6 : Fin 7) : ℕ) = 6 := rfl
  simp [calculate_R_th_without_layer, h, h2, h3, h4, h5, h6]

/-- The flux as a function of the resistance `heat_flux` has accumulated. -/
theorem heat_flux_eq (exp : α → α) (s : ThermalJacketSystem α) (d0 : α) :
    heat_flux exp s d0 =
      if heat_flux_R_th exp s d0 < 1e-12 then 1e18 else 50 / heat_flux_R_th exp s d0 := by
  have h : T_S α - T_EXT α = 50 := by norm_num [T_S, T_EXT]
  simp only [heat_flux, h]

/-- More resistance never gives more flux, the sentinel branch included. -/
theorem heat_flux_le_of_R_th_le (exp : α → α) (s s' : ThermalJacketSystem α) (d d' : α)
    (h : heat_flux_R_th exp s d ≤ heat_flux_R_th exp s' d') :
    heat_flux exp s' d' ≤ heat_flux exp s d := by
  rw [heat_flux_eq, heat_flux_eq]
  by_cases h1 : heat_flux_R_th exp s d < 1e-12
  · rw [if_pos h1]
    by_cases h2 : heat_flux_R_th exp s' d' < 1e-12
    · rw [if_pos h2]
    · rw [if_neg h2]
      have hR : (1e-12 : α) ≤ heat_flux_R_th exp s' d' := not_lt.mp h2
      have hpos : (0 : α) < heat_flux_R_th exp s' d' := lt_of_lt_of_le (by norm_num) hR
      rw [div_le_iff₀ hpos]
      have : (1e18 : α) * 1e-12 ≤ 1e18 * heat_flux_R_th exp s' d' :=
        mul_le_mul_of_nonneg_left hR (by norm_num)
      have h50 : (50 : α) ≤ 1e18 * 1e-12 := by norm_num
      exact le_trans h50 this
  · have hR : (1e-12 : α) ≤ heat_flux_R_th exp s d := not_lt.mp h1
    have hpos : (0 : α) < heat_flux_R_th exp s d := lt_of_lt_of_le (by norm_num) hR
    have h2 : ¬ heat_flux_R_th exp s' d' < 1e-12 := not_lt.mpr (le_trans hR h)
    rw [if_neg h1, if_neg h2]
    exact div_le_div_of_nonneg_left (by norm_num) hpos h

/-- Positivity of the effective conductivity inside the data-model ranges. -/
theorem Layer.k_eff_pos (exp : α → α) (hexp : ∀ x, 0 < exp x) (l : Layer α) (beta : α)
    (hk : 0 < l.k) (hmu : 0 ≤ l.mu) (hW : 0 ≤ l.W) : 0 < l.k_eff exp beta := by
  unfold Layer.k_eff
  have h1 : 0 < 1 + l.mu * l.W := by
    have := mul_nonneg hmu hW
    linarith
  exact mul_pos (mul_pos hk h1) (hexp _)

/-- With a positive conductivity at stored index 1 the resistance grows
with `d0`. -/
theorem heat_flux_R_th_mono (exp : α → α) (s : ThermalJacketSystem α)
    (hk : 0 < (s.layers 1).k_eff exp s.beta) (d d' : α) (h : d ≤ d') :
    heat_flux_R_th exp s d ≤ heat_flux_R_th exp s d' := by
  unfold heat_flux_R_th
  have hE : (0 : α) < EPS α := by norm_num [EPS]
  by_cases h1 : d > EPS α
  · have h2 : d' > EPS α := lt_of_lt_of_le h1 h
    simp only [if_pos h1, if_pos h2]
    have := div_le_div_of_nonneg_right h (le_of_lt hk)
    linarith
  · by_cases h2 : d' > EPS α
    · simp only [if_neg h1, if_pos h2]
      have : 0 ≤ d' / (s.layers 1).k_eff exp s.beta :=
        div_nonneg (le_of_lt (lt_trans hE h2)) (le_of_lt hk)
      linarith
    · simp only [if_neg h1, if_neg h2]
      exact le_refl _

/-- With a non-positive conductivity at stored index 1 the resistance does
not grow with `d0` (division by 0 gives 0). -/
theorem heat_flux_R_th_anti (exp : α → α) (s : ThermalJacketSystem α)
    (hk : (s.layers 1).k_eff exp s.beta ≤ 0) (d d' : α) (h : d ≤ d') :
    heat_flux_R_th exp s d' ≤ heat_flux_R_th exp s d := by
  unfold heat_flux_R_th
  have hE : (0 : α) < EPS α := by norm_num [EPS]
  by_cases h1 : d > EPS α
  · have h2 : d' > EPS α := lt_of_lt_of_le h1 h
    simp only [if_pos h1, if_pos h2]
    have := div_le_div_of_nonpos_of_le hk h
    linarith
  · by_cases h2 : d' > EPS α
    · simp only [if_neg h1, if_pos h2]
      have : d' / (s.layers 1).k_eff exp s.beta ≤ 0 :=
        div_nonpos_of_nonneg_of_nonpos (le_of_lt (lt_trans hE h2)) hk
      linarith
    · simp only [if_neg h1, if_neg h2]
      exact le_refl _

/-- The flux is antitone in `d0` when the conductivity at stored index 1 is
positive. -/
theorem heat_flux_antitone (exp : α → α) (s : ThermalJacketSystem α)
    (hk : 0 < (s.layers 1).k_eff exp s.beta) (d d' : α) (h : d ≤ d') :
    heat_flux exp s d' ≤ heat_flux exp s d :=
  heat_flux_le_of_R_th_le exp s s d d' (heat_flux_R_th_mono exp s hk d d' h)

/-- The flux is monotone in `d0` when the conductivity at stored index 1
is not positive. -/
theorem heat_flux_monotone_of_nonpos (exp : α → α) (s : ThermalJacketSystem α)
    (hk : (s.layers 1).k_eff exp s.beta ≤ 0) (d d' : α) (h : d ≤ d') :
    heat_flux exp s d ≤ heat_flux exp s d' :=
  heat_flux_le_of_R_th_le exp s s d' d (heat_flux_R_th_anti exp s hk d d' h)

/-- On `[0, 1e9]` the flux is never below both of its values at the two
ends, whatever the layer parameters. -/
theorem heat_flux_ends (exp : α → α) (s : ThermalJacketSystem α) (d : α)
    (h0 : 0 ≤ d) (h1 : d ≤ 1e9) :
    heat_flux exp s 0 ≤ heat_flux exp s d ∨ heat_flux exp s 1e9 ≤ heat_flux exp s d := by
  rcases le_or_lt ((s.layers 1).k_eff exp s.beta) 0 with hk | hk
  · exact Or.inl (heat_flux_monotone_of_nonpos exp s hk 0 d h0)
  · exact Or.inr (heat_flux_antitone exp s hk d 1e9 h1)

/-- The trend probe of Type 5 cannot succeed once the check at `1e9` has
failed. -/
theorem type5_trend_dead (exp : α → α) (s : ThermalJacketSystem α)
    (h9 : ¬ heat_flux exp s 1e9 ≤ Q_MAX α + EPS α) :
    ¬ (heat_flux exp s 1e7 < heat_flux exp s 1e6 ∧
      heat_flux exp s 1e7 ≤ Q_MAX α + EPS α) := by
  rintro ⟨hlt, hle⟩
  rcases le_or_lt ((s.layers 1).k_eff exp s.beta) 0 with hk | hk
  · have := heat_flux_monotone_of_nonpos exp s hk 1e6 1e7 (by norm_num)
    exact absurd hlt (not_lt.mpr this)
  · have := heat_flux_antitone exp s hk 1e7 1e9 (by norm_num)
    exact h9 (le_trans this hle)

/-- Type 5 answers `"POSSIBLE"` exactly when one of its two direct checks
succeeds. -/
theorem type5_possible_iff (exp : α → α) (s : ThermalJacketSystem α) :
    query_type5_feasibility_check exp s = "POSSIBLE" ↔
      (heat_flux exp s 0 ≤ Q_MAX α + EPS α ∨ heat_flux exp s 1e9 ≤ Q_MAX α + EPS α) := by
  unfold query_type5_feasibility_check
  by_cases h0 : heat_flux exp s 0 ≤ Q_MAX α + EPS α
  · simp [h0]
  · by_cases h9 : heat_flux exp s 1e9 ≤ Q_MAX α + EPS α
    · simp [h0, h9]
    · have ht := type5_trend_dead exp s h9
      have hgt : heat_flux exp s 1e9 > Q_MAX α - EPS α := by
        have : Q_MAX α - EPS α < Q_MAX α + EPS α := by norm_num [Q_MAX, EPS]
        exact lt_trans this (not_le.mp h9)
      simp only [h0, h9, ht, hgt, if_false, if_true, or_self, iff_false]
      decide

/-- Type 5 answers `"IMPOSSIBLE"` exactly when both direct checks fail. -/
theorem type5_impossible_iff (exp : α → α) (s : ThermalJacketSystem α) :
    query_type5_feasibility_check exp s = "IMPOSSIBLE" ↔
      (¬ heat_flux exp s 0 ≤ Q_MAX α + EPS α ∧
        ¬ heat_flux exp s 1e9 ≤ Q_MAX α + EPS α) := by
  unfold query_type5_feasibility_check
  by_cases h0 : heat_flux exp s 0 ≤ Q_MAX α + EPS α
  · simp only [h0, if_true, not_true_eq_false, false_and, iff_false]
    decide
  · by_cases h9 : heat_flux exp s 1e9 ≤ Q_MAX α + EPS α
    · simp only [h0, h9, if_false, if_true, not_true_eq_false, and_false, iff_false]
      decide
    · have ht := type5_trend_dead exp s h9
      have hgt : heat_flux exp s 1e9 > Q_MAX α - EPS α := by
        have : Q_MAX α - EPS α < Q_MAX α + EPS α := by norm_num [Q_MAX, EPS]
        exact lt_trans this (not_le.mp h9)
      simp only [h0, h9, ht, hgt, if_false, if_true, not_false_eq_true, and_self]

/-! ### The bisection loop -/

/-- One unfolding of the loop when its condition holds and the midpoint is
within the cap. -/
theorem bisect_loop_succ_feasible (q : α → α) (fuel : Nat) (b : Bisect α)
    (hc : b.right - b.left > 1e-8 ∧ b.iterations < MAX_ITERATIONS)
    (hq : q ((b.left + b.right) / 2) ≤ Q_MAX α + 1e-10) :
    bisect_loop q (fuel + 1) b =
      bisect_loop q fuel
        { left := b.left, right := (b.left + b.right) / 2, iterations := b.iterations + 1 } := by
  simp only [bisect_loop, if_pos hc, if_pos hq]

/-- One unfolding of the loop when its condition holds and the midpoint is
above the cap. -/
theorem bisect_loop_succ_infeasible (q : α → α) (fuel : Nat) (b : Bisect α)
    (hc : b.right - b.left > 1e-8 ∧ b.iterations < MAX_ITERATIONS)
    (hq : ¬ q ((b.left + b.right) / 2) ≤ Q_MAX α + 1e-10) :
    bisect_loop q (fuel + 1) b =
      bisect_loop q fuel
        { left := (b.left + b.right) / 2, right := b.right, iterations := b.iterations + 1 } := by
  simp only [bisect_loop, if_pos hc, if_neg hq]

/-- The loop is left at once when its condition fails. -/
theorem bisect_loop_succ_exit (q : α → α) (fuel : Nat) (b : Bisect α)
    (hc : ¬ (b.right - b.left > 1e-8 ∧ b.iterations < MAX_ITERATIONS)) :
    bisect_loop q (fuel + 1) b = b := by
  simp only [bisect_loop, if_neg hc]

/-- A property of the loop state that the two updates preserve holds at
the exit. -/
theorem bisect_loop_induct (q : α → α) (P : Bisect α → Prop)
    (hF : ∀ b, P b → b.right - b.left > 1e-8 ∧ b.iterations < MAX_ITERATIONS →
      q ((b.left + b.right) / 2) ≤ Q_MAX α + 1e-10 →
      P { left := b.left, right := (b.left + b.right) / 2, iterations := b.iterations + 1 })
    (hI : ∀ b, P b → b.right - b.left > 1e-8 ∧ b.iterations < MAX_ITERATIONS →
      ¬ q ((b.left + b.right) / 2) ≤ Q_MAX α + 1e-10 →
      P { left := (b.left + b.right) / 2, right := b.right, iterations := b.iterations + 1 }) :
    ∀ (fuel : Nat) (b : Bisect α), P b → P (bisect_loop q fuel b) := by
  intro fuel
  induction fuel with
  | zero => intro b hb; exact hb
  | succ n ih =>
    intro b hb
    by_cases hc : b.right - b.left > 1e-8 ∧ b.iterations < MAX_ITERATIONS
    · by_cases hq : q ((b.left + b.right) / 2) ≤ Q_MAX α + 1e-10
      · rw [bisect_loop_succ_feasible q n b hc hq]
        exact ih _ (hF b hb hc hq)
      · rw [bisect_loop_succ_infeasible q n b hc hq]
        exact ih _ (hI b hb hc hq)
    · rw [bisect_loop_succ_exit q n b hc]
      exact hb

/-- The interval stays ordered and inside `[lo, hi]`. -/
theorem bisect_loop_bounds (q : α → α) (lo hi : α) (fuel : Nat) (b : Bisect α)
    (h : lo ≤ b.left ∧ b.left < b.right ∧ b.right ≤ hi) :
    lo ≤ (bisect_loop q fuel b).left ∧
      (bisect_loop q fuel b).left < (bisect_loop q fuel b).right ∧
      (bisect_loop q fuel b).right ≤ hi := by
  refine bisect_loop_induct q (fun b => lo ≤ b.left ∧ b.left < b.right ∧ b.right ≤ hi)
    ?_ ?_ fuel b h
  · rintro b ⟨h1, h2, h3⟩ _ _
    refine ⟨h1, ?_, ?_⟩ <;> dsimp only <;> linarith
  · rintro b ⟨h1, h2, h3⟩ _ _
    refine ⟨?_, ?_, h3⟩ <;> dsimp only <;> linarith

/-- The right end is always within the cap, up to `EPS`. -/
theorem bisect_loop_right_feasible (q : α → α) (fuel : Nat) (b : Bisect α)
    (h : q b.right ≤ Q_MAX α + EPS α) :
    q (bisect_loop q fuel b).right ≤ Q_MAX α + EPS α := by
  refine bisect_loop_induct q (fun b => q b.right ≤ Q_MAX α + EPS α) ?_ ?_ fuel b h
  · intro b _ _ hq
    have : Q_MAX α + 1e-10 ≤ Q_MAX α + EPS α := by norm_num [Q_MAX, EPS]
    exact le_trans hq this
  · intro b hb _ _
    exact hb

/-- The left end is always above the cap. -/
theorem bisect_loop_left_infeasible (q : α → α) (fuel : Nat) (b : Bisect α)
    (h : Q_MAX α + 1e-10 < q b.left) :
    Q_MAX α + 1e-10 < q (bisect_loop q fuel b).left := by
  refine bisect_loop_induct q (fun b => Q_MAX α + 1e-10 < q b.left) ?_ ?_ fuel b h
  · intro b hb _ _
    exact hb
  · intro b _ _ hq
    exact not_le.mp hq

/-- Exit of the loop: from a state whose width is `1e9 / 2 ^ iterations`,
with enough iterations left to reach 57, the loop stops after iteration 57
at width `1e9 / 2 ^ 57`. -/
theorem bisect_loop_exit (q : α → α) :
    ∀ (fuel : Nat) (b : Bisect α), b.right - b.left = 1e9 / 2 ^ b.iterations →
      b.iterations ≤ 57 → 57 ≤ fuel + b.iterations →
      (bisect_loop q fuel b).iterations = 57 ∧
        (bisect_loop q fuel b).right - (bisect_loop q fuel b).left = 1e9 / 2 ^ 57 := by
  intro fuel
  induction fuel with
  | zero =>
    intro b hw h1 h2
    have : b.iterations = 57 := by omega
    simp only [bisect_loop]
    exact ⟨this, by rw [hw, this]⟩
  | succ n ih =>
    intro b hw h1 h2
    rcases Nat.lt_or_ge b.iterations 57 with hlt | hge
    · have hpow : (2 : α) ^ b.iterations ≤ 2 ^ 56 :=
        pow_le_pow_right₀ (by norm_num) (by omega)
      have hpos : (0 : α) < 2 ^ b.iterations := by positivity
      have hwide : b.right - b.left > 1e-8 := by
        rw [hw, gt_iff_lt, lt_div_iff₀ hpos]
        have : (1e-8 : α) * 2 ^ b.iterations ≤ 1e-8 * 2 ^ 56 :=
          mul_le_mul_of_nonneg_left hpow (by norm_num)
        have h56 : (1e-8 : α) * 2 ^ 56 < 1e9 := by norm_num
        exact lt_of_le_of_lt this h56
      have hc : b.right - b.left > 1e-8 ∧ b.iterations < MAX_ITERATIONS :=
        ⟨hwide, by unfold MAX_ITERATIONS; omega⟩
      have hhalf : (1e9 : α) / 2 ^ (b.iterations + 1) = (b.right - b.left) / 2 := by
        rw [hw, pow_succ, div_div]
      by_cases hq : q ((b.left + b.right) / 2) ≤ Q_MAX α + 1e-10
      · rw [bisect_loop_succ_feasible q n b hc hq]
        refine ih _ ?_ (by dsimp only; omega) (by dsimp only; omega)
        dsimp only
        rw [hhalf]
        ring
      · rw [bisect_loop_succ_infeasible q n b hc hq]
        refine ih _ ?_ (by dsimp only; omega) (by dsimp only; omega)
        dsimp only
        rw [hhalf]
        ring
    · have h57 : b.iterations = 57 := by omega
      have hc : ¬ (b.right - b.left > 1e-8 ∧ b.iterations < MAX_ITERATIONS) := by
        rintro ⟨hwide, _⟩
        rw [hw, h57] at hwide
        have : (1e9 : α) / 2 ^ 57 ≤ 1e-8 := by norm_num
        exact absurd hwide (not_lt.mpr this)
      rw [bisect_loop_succ_exit q n b hc]
      exact ⟨h57, by rw [hw, h57]⟩

/-- Final width of the search started by Type 4: at most `1e-8`. -/
theorem bisect_loop_final_width (q : α → α) :
    (bisect_loop q MAX_ITERATIONS { left := 0, right := 1e9, iterations := 0 }).right -
      (bisect_loop q MAX_ITERATIONS { left := 0, right := 1e9, iterations := 0 }).left
        ≤ 1e-8 := by
  have h := (bisect_loop_exit q MAX_ITERATIONS { left := 0, right := 1e9, iterations := 0 }
    (by norm_num) (by norm_num) (by norm_num [MAX_ITERATIONS])).2
  rw [h]
  norm_num

/-! ### The three branches of Type 4 -/

/-- First branch of Type 4. -/
theorem type4_of_zero_ok (exp : α → α) (s : ThermalJacketSystem α)
    (h0 : heat_flux exp s 0 ≤ Q_MAX α + EPS α) :
    query_type4_minimum_foam_thickness exp s = 0 := by
  simp only [query_type4_minimum_foam_thickness, if_pos h0]

/-- Second branch of Type 4. -/
theorem type4_of_large_fails (exp : α → α) (s : ThermalJacketSystem α)
    (h0 : ¬ heat_flux exp s 0 ≤ Q_MAX α + EPS α)
    (h9 : ¬ heat_flux exp s 1e9 ≤ Q_MAX α + EPS α) :
    query_type4_minimum_foam_thickness exp s = 1e18 := by
  simp only [query_type4_minimum_foam_thickness, if_neg h0, gt_iff_lt, if_pos (not_le.mp h9)]

/-- Third branch of Type 4: the bisection. -/
theorem type4_of_bisection (exp : α → α) (s : ThermalJacketSystem α)
    (h0 : ¬ heat_flux exp s 0 ≤ Q_MAX α + EPS α)
    (h9 : heat_flux exp s 1e9 ≤ Q_MAX α + EPS α) :
    query_type4_minimum_foam_thickness exp s =
      (bisect_loop (heat_flux exp s) MAX_ITERATIONS
        { left := 0, right := 1e9, iterations := 0 }).right := by
  simp only [query_type4_minimum_foam_thickness, if_neg h0, gt_iff_lt, if_neg (not_lt.mpr h9)]

/-- The bisection answer lies in `(0, 1e9]`. -/
theorem type4_bisection_range (exp : α → α) (s : ThermalJacketSystem α)
    (h0 : ¬ heat_flux exp s 0 ≤ Q_MAX α + EPS α)
    (h9 : heat_flux exp s 1e9 ≤ Q_MAX α + EPS α) :
    0 < query_type4_minimum_foam_thickness exp s ∧
      query_type4_minimum_foam_thickness exp s ≤ 1e9 := by
  rw [type4_of_bisection exp s h0 h9]
  have h := bisect_loop_bounds (heat_flux exp s) 0 1e9 MAX_ITERATIONS
    { left := 0, right := 1e9, iterations := 0 } ⟨le_refl _, by norm_num, le_refl _⟩
  exact ⟨lt_of_le_of_lt h.1 h.2.1, h.2.2⟩

/-- Type 4 answers 0 exactly when the check at thickness 0 succeeds. -/
theorem type4_eq_zero_iff (exp : α → α) (s : ThermalJacketSystem α) :
    query_type4_minimum_foam_thickness exp s = 0 ↔ heat_flux exp s 0 ≤ Q_MAX α + EPS α := by
  constructor
  · intro h
    by_contra h0
    by_cases h9 : heat_flux exp s 1e9 ≤ Q_MAX α + EPS α
    · have := (type4_bisection_range exp s h0 h9).1
      rw [h] at this
      exact lt_irrefl _ this
    · rw [type4_of_large_fails exp s h0 h9] at h
      norm_num at h
  · exact type4_of_zero_ok exp s

/-- Type 4 answers the sentinel exactly when both checks fail. -/
theorem type4_eq_sentinel_iff (exp : α → α) (s : ThermalJacketSystem α) :
    query_type4_minimum_foam_thickness exp s = 1e18 ↔
      (¬ heat_flux exp s 0 ≤ Q_MAX α + EPS α ∧
        ¬ heat_flux exp s 1e9 ≤ Q_MAX α + EPS α) := by
  constructor
  · intro h
    by_cases h0 : heat_flux exp s 0 ≤ Q_MAX α + EPS α
    · rw [type4_of_zero_ok exp s h0] at h
      norm_num at h
    · by_cases h9 : heat_flux exp s 1e9 ≤ Q_MAX α + EPS α
      · have := (type4_bisection_range exp s h0 h9).2
        rw [h] at this
        norm_num at this
      · exact ⟨h0, h9⟩
  · rintro ⟨h0, h9⟩
    exact type4_of_large_fails exp s h0 h9

/-- Type 4 never answers more than the sentinel. -/
theorem type4_le_sentinel (exp : α → α) (s : ThermalJacketSystem α) :
    query_type4_minimum_foam_thickness exp s ≤ 1e18 := by
  by_cases h0 : heat_flux exp s 0 ≤ Q_MAX α + EPS α
  · rw [type4_of_zero_ok exp s h0]; norm_num
  · by_cases h9 : heat_flux exp s 1e9 ≤ Q_MAX α + EPS α
    · exact le_trans (type4_bisection_range exp s h0 h9).2 (by norm_num)
    · rw [type4_of_large_fails exp s h0 h9]

/-! ### Type 1 and Type 2: the propagation loops unrolled -/

/-- What Type 1 leaves in every field of every layer, and in `beta`. -/
theorem type1_spec (s : ThermalJacketSystem α) (t : α) :
    ((query_type1_environmental_exposure s t).layers 6).W
        = (s.layers 6).W + t * MOISTURE_RATE α ∧
      (∀ i : Fin 6, ((query_type1_environmental_exposure s t).layers i.castSucc).W
        = (s.layers i.castSucc).W
          + ((query_type1_environmental_exposure s t).layers i.succ).W
            * (s.layers i.succ).mu) ∧
      (∀ i : Fin 7,
        ((query_type1_environmental_exposure s t).layers i).d = (s.layers i).d ∧
        ((query_type1_environmental_exposure s t).layers i).k = (s.layers i).k ∧
        ((query_type1_environmental_exposure s t).layers i).mu = (s.layers i).mu ∧
        ((query_type1_environmental_exposure s t).layers i).c = (s.layers i).c ∧
        ((query_type1_environmental_exposure s t).layers i).C = (s.layers i).C) ∧
      (query_type1_environmental_exposure s t).beta = s.beta := by
  refine ⟨?_, ?_, ?_, rfl⟩
  · simp [query_type1_environmental_exposure, type1_loop, Function.update]
  · intro i
    fin_cases i <;>
      simp [query_type1_environmental_exposure, type1_loop, Function.update, Fin.castSucc,
        Fin.succ, Fin.castAdd, Fin.castLE]
  · intro i
    fin_cases i <;>
      simp [query_type1_environmental_exposure, type1_loop, Function.update]

/-- Inside the ranges, exposure for `t ≥ 0` hours lowers no moisture value. -/
theorem type1_W_le (s : ThermalJacketSystem α) (t : α)
    (hmu : ∀ i, 0 ≤ (s.layers i).mu) (hW : ∀ i, 0 ≤ (s.layers i).W) (ht : 0 ≤ t)
    (i : Fin 7) :
    (s.layers i).W ≤ ((query_type1_environmental_exposure s t).layers i).W := by
  obtain ⟨h6, hstep, _, _⟩ := type1_spec s t
  induction i using Fin.reverseInduction with
  | last =>
    have hl : Fin.last 6 = (6 : Fin 7) := rfl
    rw [hl, h6]
    have : 0 ≤ t * MOISTURE_RATE α := mul_nonneg ht (by norm_num [MOISTURE_RATE])
    linarith
  | cast j ih =>
    rw [hstep j]
    have h1 : 0 ≤ ((query_type1_environmental_exposure s t).layers j.succ).W :=
      le_trans (hW _) ih
    have := mul_nonneg h1 (hmu j.succ)
    linarith

/-- More moisture, all else equal, gives at least the conductivity. -/
theorem Layer.k_eff_le_of_W_le (exp : α → α) (hexp : ∀ x, 0 < exp x) (l l' : Layer α)
    (beta : α) (hk : l'.k = l.k) (hm : l'.mu = l.mu) (hC : l'.C = l.C)
    (hkpos : 0 < l.k) (hmu : 0 ≤ l.mu) (hW : l.W ≤ l'.W) :
    l.k_eff exp beta ≤ l'.k_eff exp beta := by
  unfold Layer.k_eff
  rw [hk, hm, hC]
  have h1 : l.mu * l.W ≤ l.mu * l'.W := mul_le_mul_of_nonneg_left hW hmu
  have h2 : l.k * (1 + l.mu * l.W) ≤ l.k * (1 + l.mu * l'.W) :=
    mul_le_mul_of_nonneg_left (by linarith) (le_of_lt hkpos)
  exact mul_le_mul_of_nonneg_right h2 (le_of_lt (hexp _))

/-- A layer of the same thickness and at least the conductivity resists no
more. -/
theorem Layer.thermal_resistance_le (exp : α → α) (l l' : Layer α) (beta : α)
    (hd : l'.d = l.d) (hpos : 0 < l.k_eff exp beta)
    (hle : l.k_eff exp beta ≤ l'.k_eff exp beta) :
    l'.thermal_resistance exp beta ≤ l.thermal_resistance exp beta := by
  unfold Layer.thermal_resistance
  rw [hd]
  by_cases h : l.d < EPS α
  · simp only [if_pos h, le_refl]
  · simp only [if_neg h]
    have hE : (0 : α) < EPS α := by norm_num [EPS]
    have hd0 : 0 ≤ l.d := le_trans (le_of_lt hE) (not_lt.mp h)
    exact div_le_div_of_nonneg_left hd0 hpos hle

/-- Inside the ranges, exposure for `t ≥ 0` hours raises the flux at every
thickness. -/
theorem heat_flux_le_after_type1 (exp : α → α) (hexp : ∀ x, 0 < exp x)
    (s : ThermalJacketSystem α) (t : α)
    (hk : ∀ i, 0 < (s.layers i).k) (hmu : ∀ i, 0 ≤ (s.layers i).mu)
    (hW : ∀ i, 0 ≤ (s.layers i).W) (ht : 0 ≤ t) (d0 : α) :
    heat_flux exp s d0 ≤ heat_flux exp (query_type1_environmental_exposure s t) d0 := by
  apply heat_flux_le_of_R_th_le
  obtain ⟨_, _, hfr, hb⟩ := type1_spec s t
  have hkeff : ∀ i, (s.layers i).k_eff exp s.beta
      ≤ ((query_type1_environmental_exposure s t).layers i).k_eff exp s.beta := fun i =>
    Layer.k_eff_le_of_W_le exp hexp _ _ _ (hfr i).2.1 (hfr i).2.2.1 (hfr i).2.2.2.2
      (hk i) (hmu i) (type1_W_le s t hmu hW ht i)
  have hpos : ∀ i, 0 < (s.layers i).k_eff exp s.beta := fun i =>
    Layer.k_eff_pos exp hexp _ _ (hk i) (hmu i) (hW i)
  have htr : ∀ i,
      ((query_type1_environmental_exposure s t).layers i).thermal_resistance exp s.beta
      ≤ (s.layers i).thermal_resistance exp s.beta := fun i =>
    Layer.thermal_resistance_le exp _ _ _ (hfr i).1 (hpos i) (hkeff i)
  unfold heat_flux_R_th
  rw [calculate_R_th_without_layer_one, calculate_R_th_without_layer_one, hb]
  have hsum := add_le_add (add_le_add (add_le_add (add_le_add (add_le_add
    (htr 0) (htr 2)) (htr 3)) (htr 4)) (htr 5)) (htr 6)
  by_cases h : d0 > EPS α
  · simp only [if_pos h]
    have hE : (0 : α) < EPS α := by norm_num [EPS]
    have := div_le_div_of_nonneg_left (le_of_lt (lt_trans hE h)) (hpos 1) (hkeff 1)
    linarith
  · simp only [if_neg h]
    exact hsum

/-- Two searches on the same dyadic grid: if the second flux dominates the
first and the second interval is not to the left of the first, the same
holds at the exit. -/
theorem bisect_loop_right_le (q q' : α → α) (hq : ∀ x, q x ≤ q' x) :
    ∀ (fuel : Nat) (b b' : Bisect α) (a a' : Nat) (w : α), 0 ≤ w →
      b.iterations = b'.iterations →
      b.left = a * w → b.right = (a + 1) * w →
      b'.left = a' * w → b'.right = (a' + 1) * w → a ≤ a' →
      (bisect_loop q fuel b).right ≤ (bisect_loop q' fuel b').right := by
  intro fuel
  induction fuel with
  | zero =>
    intro b b' a a' w hw _ _ hr _ hr' haa
    simp only [bisect_loop]
    rw [hr, hr']
    have : (a : α) ≤ a' := by exact_mod_cast haa
    exact mul_le_mul_of_nonneg_right (by linarith) hw
  | succ n ih =>
    intro b b' a a' w hw hit hl hr hl' hr' haa
    have hcast : (a : α) ≤ a' := by exact_mod_cast haa
    have hwidth : b.right - b.left = b'.right - b'.left := by
      rw [hl, hr, hl', hr']; ring
    by_cases hc : b.right - b.left > 1e-8 ∧ b.iterations < MAX_ITERATIONS
    · have hc' : b'.right - b'.left > 1e-8 ∧ b'.iterations < MAX_ITERATIONS := by
        rw [← hwidth, ← hit]; exact hc
      have hw2 : 0 ≤ w / 2 := by linarith
      have hmid : (b.left + b.right) / 2 = ((2 * a + 1 : Nat) : α) * (w / 2) := by
        rw [hl, hr]; push_cast; ring
      have hmid' : (b'.left + b'.right) / 2 = ((2 * a' + 1 : Nat) : α) * (w / 2) := by
        rw [hl', hr']; push_cast; ring
      by_cases hf : q ((b.left + b.right) / 2) ≤ Q_MAX α + 1e-10
      · rw [bisect_loop_succ_feasible q n b hc hf]
        by_cases hf' : q' ((b'.left + b'.right) / 2) ≤ Q_MAX α + 1e-10
        · rw [bisect_loop_succ_feasible q' n b' hc' hf']
          refine ih _ _ (2 * a) (2 * a') (w / 2) hw2 (by dsimp only; omega) ?_ ?_ ?_ ?_
            (by omega)
          · dsimp only; rw [hl]; push_cast; ring
          · dsimp only; rw [hmid]; push_cast; ring
          · dsimp only; rw [hl']; push_cast; ring
          · dsimp only; rw [hmid']; push_cast; ring
        · rw [bisect_loop_succ_infeasible q' n b' hc' hf']
          refine ih _ _ (2 * a) (2 * a' + 1) (w / 2) hw2 (by dsimp only; omega) ?_ ?_ ?_ ?_
            (by omega)
          · dsimp only; rw [hl]; push_cast; ring
          · dsimp only; rw [hmid]; push_cast; ring
          · dsimp only; rw [hmid']
          · dsimp only; rw [hr']; push_cast; ring
      · rw [bisect_loop_succ_infeasible q n b hc hf]
        by_cases hf' : q' ((b'.left + b'.right) / 2) ≤ Q_MAX α + 1e-10
        · rw [bisect_loop_succ_feasible q' n b' hc' hf']
          have hlt : a < a' := by
            rcases Nat.lt_or_ge a a' with h | h
            · exact h
            · exfalso
              have hEq : a = a' := le_antisymm haa h
              have hm : (b.left + b.right) / 2 = (b'.left + b'.right) / 2 := by
                rw [hmid, hmid', hEq]
              rw [← hm] at hf'
              exact hf (le_trans (hq _) hf')
          refine ih _ _ (2 * a + 1) (2 * a') (w / 2) hw2 (by dsimp only; omega) ?_ ?_ ?_ ?_
            (by omega)
          · dsimp only; rw [hmid]
          · dsimp only; rw [hr]; push_cast; ring
          · dsimp only; rw [hl']; push_cast; ring
          · dsimp only; rw [hmid']; push_cast; ring
        · rw [bisect_loop_succ_infeasible q' n b' hc' hf']
          refine ih _ _ (2 * a + 1) (2 * a' + 1) (w / 2) hw2 (by dsimp only; omega) ?_ ?_ ?_ ?_
            (by omega)
          · dsimp only; rw [hmid]
          · dsimp only; rw [hr]; push_cast; ring
          · dsimp only; rw [hmid']
          · dsimp only; rw [hr']; push_cast; ring
    · have hc' : ¬ (b'.right - b'.left > 1e-8 ∧ b'.iterations < MAX_ITERATIONS) := by
        rw [← hwidth, ← hit]; exact hc
      rw [bisect_loop_succ_exit q n b hc, bisect_loop_succ_exit q' n b' hc', hr, hr']
      exact mul_le_mul_of_nonneg_right (by linarith) hw

/-- Type 4 never answers a negative thickness. -/
theorem type4_nonneg (exp : α → α) (s : ThermalJacketSystem α) :
    0 ≤ query_type4_minimum_foam_thickness exp s := by
  by_cases h0 : heat_flux exp s 0 ≤ Q_MAX α + EPS α
  · rw [type4_of_zero_ok exp s h0]
  · by_cases h9 : heat_flux exp s 1e9 ≤ Q_MAX α + EPS α
    · exact le_of_lt (type4_bisection_range exp s h0 h9).1
    · rw [type4_of_large_fails exp s h0 h9]; norm_num

/-- A pointwise larger flux never lowers the Type 4 answer. -/
theorem type4_le_of_flux_le (exp : α → α) (s s' : ThermalJacketSystem α)
    (h : ∀ d0, heat_flux exp s d0 ≤ heat_flux exp s' d0) :
    query_type4_minimum_foam_thickness exp s ≤ query_type4_minimum_foam_thickness exp s' := by
  by_cases h0 : heat_flux exp s 0 ≤ Q_MAX α + EPS α
  · rw [type4_of_zero_ok exp s h0]
    exact type4_nonneg exp s'
  · have h0' : ¬ heat_flux exp s' 0 ≤ Q_MAX α + EPS α := fun hc => h0 (le_trans (h 0) hc)
    by_cases h9' : heat_flux exp s' 1e9 ≤ Q_MAX α + EPS α
    · have h9 : heat_flux exp s 1e9 ≤ Q_MAX α + EPS α := le_trans (h _) h9'
      rw [type4_of_bisection exp s h0 h9, type4_of_bisection exp s' h0' h9']
      exact bisect_loop_right_le (heat_flux exp s) (heat_flux exp s') h MAX_ITERATIONS
        _ _ 0 0 1e9 (by norm_num) rfl (by simp) (by simp) (by simp) (by simp) (le_refl _)
    · rw [type4_of_large_fails exp s' h0' h9']
      exact type4_le_sentinel exp s

/-- What the Type 2 update at stored index `j` leaves in every layer. -/
theorem type2_loop_spec (layers : Fin 7 → Layer α) (j : Fin 7) (x : α) :
    (type2_loop 6 (Function.update layers j { layers j with C := (layers j).C + x }) j.val j).C
        = (layers j).C + x ∧
      (∀ i : Fin 6, j ≤ i.castSucc →
        (type2_loop 6 (Function.update layers j { layers j with C := (layers j).C + x })
            j.val i.succ).C
          = (layers i.succ).C
            + (type2_loop 6 (Function.update layers j { layers j with C := (layers j).C + x })
                j.val i.castSucc).C * (layers i.castSucc).c) ∧
      (∀ k : Fin 7, k < j →
        type2_loop 6 (Function.update layers j { layers j with C := (layers j).C + x })
          j.val k = layers k) ∧
      (∀ k : Fin 7,
        (type2_loop 6 (Function.update layers j { layers j with C := (layers j).C + x })
            j.val k).d = (layers k).d ∧
        (type2_loop 6 (Function.update layers j { layers j with C := (layers j).C + x })
            j.val k).k = (layers k).k ∧
        (type2_loop 6 (Function.update layers j { layers j with C := (layers j).C + x })
            j.val k).mu = (layers k).mu ∧
        (type2_loop 6 (Function.update layers j { layers j with C := (layers j).C + x })
            j.val k).c = (layers k).c ∧
        (type2_loop 6 (Function.update layers j { layers j with C := (layers j).C + x })
            j.val k).W = (layers k).W) := by
  refine ⟨?_, ?_, ?_, ?_⟩
  · fin_cases j <;> simp [type2_loop, Function.update]
  · intro i hji
    fin_cases j <;> fin_cases i <;>
      first
        | (exfalso; revert hji; decide)
        | simp [type2_loop, Function.update, Fin.castSucc, Fin.succ, Fin.castAdd, Fin.castLE]
  · intro k hk
    fin_cases j <;> fin_cases k <;>
      first
        | (exfalso; revert hk; decide)
        | simp [type2_loop, Function.update]
  · intro k
    fin_cases j <;> fin_cases k <;> simp [type2_loop, Function.update]

/-- Inside the index range Type 2 returns the updated stack. -/
theorem type2_eq_some (s : ThermalJacketSystem α) (i : Int) (x : α) (j : Fin 7)
    (hj : (j.val : Int) = i + 1) :
    query_type2_mechanical_stress s i x =
      some { s with layers := (type2_loop 6
        (Function.update s.layers j { s.layers j with C := (s.layers j).C + x }) j.val) } := by
  have hi : 0 ≤ i + 1 ∧ i + 1 < 7 := by
    have := j.isLt
    omega
  have hjj : (⟨(i + 1).toNat, by omega⟩ : Fin 7) = j := by
    apply Fin.ext
    simp only
    omega
  have hn : (i + 1).toNat = j.val := by omega
  simp only [query_type2_mechanical_stress, dif_pos hi, hjj, hn]

/-- The Type 2 update at stored index `j` with `x = 0` leaves the
compression values alone exactly when no layer from `j` to stored index 5
has anything to pass outward. -/
theorem type2_zero_noop_iff (layers : Fin 7 → Layer α) (j : Fin 7) :
    (∀ k : Fin 7,
      (type2_loop 6 (Function.update layers j { layers j with C := (layers j).C + 0 })
        j.val k).C = (layers k).C) ↔
      ∀ idx : Fin 7, j ≤ idx → idx.val < 6 → (layers idx).C * (layers idx).c = 0 := by
  obtain ⟨hj, hstep, hlow, _⟩ := type2_loop_spec layers j 0
  generalize type2_loop 6 (Function.update layers j { layers j with C := (layers j).C + 0 })
    j.val = L at hj hstep hlow ⊢
  rw [add_zero] at hj
  constructor
  · intro h idx hji hlt
    have hc : (⟨idx.val, hlt⟩ : Fin 6).castSucc = idx := Fin.ext rfl
    have := hstep ⟨idx.val, hlt⟩ (by rw [hc]; exact hji)
    rw [hc, h idx, h] at this
    linarith
  · intro h k
    induction k using Fin.induction with
    | zero =>
      rcases eq_or_lt_of_le (Fin.zero_le j) with h0 | h0
      · rw [← h0] at hj; exact hj
      · rw [hlow 0 h0]
    | succ i ih =>
      rcases lt_trichotomy i.succ j with hlt | heq | hgt
      · rw [hlow _ hlt]
      · rw [← heq] at hj; exact hj
      · have hji : j ≤ i.castSucc := by
          rw [Fin.le_def]
          rw [Fin.lt_def] at hgt
          simp only [Fin.val_succ, Fin.coe_castSucc] at hgt ⊢
          omega
        rw [hstep i hji, ih, h i.castSucc hji (by simp), add_zero]

/-! ### The sample stack -/

/-- Base conductivities of the sample are positive. -/
theorem sample_k_pos : ∀ i, 0 < ((sampleSystem ℝ).layers i).k := by
  intro i; fin_cases i <;> norm_num [sampleSystem, sampleLayers, Layer.new]

/-- Moisture coefficients of the sample are non-negative. -/
theorem sample_mu_nonneg : ∀ i, 0 ≤ ((sampleSystem ℝ).layers i).mu := by
  intro i; fin_cases i <;> norm_num [sampleSystem, sampleLayers, Layer.new]

/-- The sample starts dry. -/
theorem sample_W_nonneg : ∀ i, 0 ≤ ((sampleSystem ℝ).layers i).W := by
  intro i; fin_cases i <;> norm_num [sampleSystem, sampleLayers, Layer.new]

/-- Resistance of the sample as a function of the thickness `d0`. -/
theorem sample_R_th (d0 : ℝ) :
    heat_flux_R_th Real.exp (sampleSystem ℝ) d0 =
      if d0 > 1e-9 then 3323 / 2625 + d0 / (3 / 100) else 3323 / 2625 := by
  simp only [heat_flux_R_th, calculate_R_th_without_layer_one, sampleSystem, sampleLayers,
    Layer.thermal_resistance, Layer.k_eff, Layer.new, Real.exp_zero, mul_zero, EPS]
  norm_num

/-- Flux of the sample with no foam: about 39.5. -/
theorem sample_flux_zero : heat_flux Real.exp (sampleSystem ℝ) 0 = 131250 / 3323 := by
  rw [heat_flux_eq, sample_R_th]
  norm_num

/-- On the sample the check at thickness 0 fails. -/
theorem sample_zero_fails : ¬ heat_flux Real.exp (sampleSystem ℝ) 0 ≤ Q_MAX ℝ + EPS ℝ := by
  rw [sample_flux_zero]
  norm_num [Q_MAX, EPS]

/-- On the sample the check at thickness `1e9` succeeds. -/
theorem sample_large_ok : heat_flux Real.exp (sampleSystem ℝ) 1e9 ≤ Q_MAX ℝ + EPS ℝ := by
  rw [heat_flux_eq, sample_R_th]
  norm_num [Q_MAX, EPS]

/-- The sample is answered by the bisection: neither 0 nor the sentinel. -/
theorem sample_type4_bisects :
    query_type4_minimum_foam_thickness Real.exp (sampleSystem ℝ) ≠ 0 ∧
      query_type4_minimum_foam_thickness Real.exp (sampleSystem ℝ) ≠ 1e18 := by
  constructor
  · rw [Ne, type4_eq_zero_iff]
    exact sample_zero_fails
  · rw [Ne, type4_eq_sentinel_iff]
    exact fun h => h.2 sample_large_ok

/-! ### Type 3, termination of the search, and the flux bounds -/

/-- Inside the index range Type 3 returns the stack with the layer
replaced. -/
theorem type3_eq_some (s : ThermalJacketSystem α) (i : Int) (d k mu c : α) (j : Fin 7)
    (hj : (j.val : Int) = i + 1) :
    query_type3_replace_layer s i d k mu c =
      some { s with layers :=
        (Function.update s.layers j { d := d, k := k, mu := mu, c := c, W := 0, C := 0 }) } := by
  have hi : 0 ≤ i + 1 ∧ i + 1 < 7 := by
    have := j.isLt
    omega
  have hjj : (⟨(i + 1).toNat, by omega⟩ : Fin 7) = j := by
    apply Fin.ext
    simp only
    omega
  simp only [query_type3_replace_layer, dif_pos hi, hjj]

/-- The iteration counter caps the loop: with enough iterations allowed to
reach `MAX_ITERATIONS`, the loop is left with its condition false and the
counter at most `MAX_ITERATIONS`, whatever the flux and the interval. -/
theorem bisect_loop_capped (q : α → α) :
    ∀ (fuel : Nat) (b : Bisect α), b.iterations ≤ MAX_ITERATIONS →
      MAX_ITERATIONS ≤ fuel + b.iterations →
      (bisect_loop q fuel b).iterations ≤ MAX_ITERATIONS ∧
        ¬ ((bisect_loop q fuel b).right - (bisect_loop q fuel b).left > 1e-8 ∧
          (bisect_loop q fuel b).iterations < MAX_ITERATIONS) := by
  intro fuel
  induction fuel with
  | zero =>
    intro b h1 h2
    simp only [bisect_loop]
    exact ⟨h1, fun hc => by omega⟩
  | succ n ih =>
    intro b h1 h2
    by_cases hc : b.right - b.left > 1e-8 ∧ b.iterations < MAX_ITERATIONS
    · by_cases hq : q ((b.left + b.right) / 2) ≤ Q_MAX α + 1e-10
      · rw [bisect_loop_succ_feasible q n b hc hq]
        exact ih _ (by dsimp only; omega) (by dsimp only; omega)
      · rw [bisect_loop_succ_infeasible q n b hc hq]
        exact ih _ (by dsimp only; omega) (by dsimp only; omega)
    · rw [bisect_loop_succ_exit q n b hc]
      exact ⟨h1, hc⟩

/-- Once the loop has been left, allowing more iterations changes
nothing. -/
theorem bisect_loop_stable (q : α → α) :
    ∀ (n : Nat) (b : Bisect α),
      ¬ ((bisect_loop q n b).right - (bisect_loop q n b).left > 1e-8 ∧
        (bisect_loop q n b).iterations < MAX_ITERATIONS) →
      ∀ m : Nat, bisect_loop q (n + m) b = bisect_loop q n b := by
  intro n
  induction n with
  | zero =>
    intro b h m
    simp only [bisect_loop] at h
    cases m with
    | zero => rfl
    | succ m =>
      rw [Nat.zero_add, bisect_loop_succ_exit q m b h]
      simp only [bisect_loop]
  | succ n ih =>
    intro b h m
    have hnm : n + 1 + m = (n + m) + 1 := by omega
    rw [hnm]
    by_cases hc : b.right - b.left > 1e-8 ∧ b.iterations < MAX_ITERATIONS
    · by_cases hq : q ((b.left + b.right) / 2) ≤ Q_MAX α + 1e-10
      · rw [bisect_loop_succ_feasible q n b hc hq] at h ⊢
        rw [bisect_loop_succ_feasible q (n + m) b hc hq]
        exact ih _ h m
      · rw [bisect_loop_succ_infeasible q n b hc hq] at h ⊢
        rw [bisect_loop_succ_infeasible q (n + m) b hc hq]
        exact ih _ h m
    · rw [bisect_loop_succ_exit q n b hc, bisect_loop_succ_exit q (n + m) b hc]

/-- While fewer than 57 iterations have run the loop keeps going: after
`fuel` more iterations the counter has advanced by `fuel` and the width has
been halved `fuel` times. -/
theorem bisect_loop_steps (q : α → α) :
    ∀ (fuel : Nat) (b : Bisect α), b.right - b.left = 1e9 / 2 ^ b.iterations →
      b.iterations + fuel ≤ 57 →
      (bisect_loop q fuel b).iterations = b.iterations + fuel ∧
        (bisect_loop q fuel b).right - (bisect_loop q fuel b).left
          = 1e9 / 2 ^ (b.iterations + fuel) := by
  intro fuel
  induction fuel with
  | zero =>
    intro b hw _
    simp only [bisect_loop, Nat.add_zero]
    exact ⟨trivial, hw⟩
  | succ n ih =>
    intro b hw h
    have hpow : (2 : α) ^ b.iterations ≤ 2 ^ 56 :=
      pow_le_pow_right₀ (by norm_num) (by omega)
    have hpos : (0 : α) < 2 ^ b.iterations := by positivity
    have hwide : b.right - b.left > 1e-8 := by
      rw [hw, gt_iff_lt, lt_div_iff₀ hpos]
      have : (1e-8 : α) * 2 ^ b.iterations ≤ 1e-8 * 2 ^ 56 :=
        mul_le_mul_of_nonneg_left hpow (by norm_num)
      have h56 : (1e-8 : α) * 2 ^ 56 < 1e9 := by norm_num
      exact lt_of_le_of_lt this h56
    have hc : b.right - b.left > 1e-8 ∧ b.iterations < MAX_ITERATIONS :=
      ⟨hwide, by unfold MAX_ITERATIONS; omega⟩
    have hhalf : (1e9 : α) / 2 ^ (b.iterations + 1) = (b.right - b.left) / 2 := by
      rw [hw, pow_succ, div_div]
    have hidx : b.iterations + (n + 1) = b.iterations + 1 + n := by omega
    by_cases hq : q ((b.left + b.right) / 2) ≤ Q_MAX α + 1e-10
    · rw [bisect_loop_succ_feasible q n b hc hq, hidx]
      refine ih _ ?_ (by dsimp only; omega)
      dsimp only
      rw [hhalf]
      ring
    · rw [bisect_loop_succ_infeasible q n b hc hq, hidx]
      refine ih _ ?_ (by dsimp only; omega)
      dsimp only
      rw [hhalf]
      ring

/-- Type 5 answers one of its two strings. -/
theorem type5_values (exp : α → α) (s : ThermalJacketSystem α) :
    query_type5_feasibility_check exp s = "POSSIBLE" ∨
      query_type5_feasibility_check exp s = "IMPOSSIBLE" := by
  by_cases h : heat_flux exp s 0 ≤ Q_MAX α + EPS α ∨ heat_flux exp s 1e9 ≤ Q_MAX α + EPS α
  · exact Or.inl ((type5_possible_iff exp s).mpr h)
  · rw [not_or] at h
    exact Or.inr ((type5_impossible_iff exp s).mpr h)

/-- Two stacks that agree everywhere except in the stored thickness at
stored index 1 have the same flux function. -/
theorem heat_flux_congr (exp : α → α) (s s' : ThermalJacketSystem α)
    (hother : ∀ i : Fin 7, i ≠ 1 → s'.layers i = s.layers i)
    (hk : (s'.layers 1).k = (s.layers 1).k) (hmu : (s'.layers 1).mu = (s.layers 1).mu)
    (hW : (s'.layers 1).W = (s.layers 1).W) (hC : (s'.layers 1).C = (s.layers 1).C)
    (hb : s'.beta = s.beta) :
    heat_flux exp s' = heat_flux exp s := by
  funext d0
  rw [heat_flux_eq, heat_flux_eq]
  have hR : heat_flux_R_th exp s' d0 = heat_flux_R_th exp s d0 := by
    simp only [heat_flux_R_th, calculate_R_th_without_layer_one, Layer.k_eff]
    rw [hother 0 (by decide), hother 2 (by decide), hother 3 (by decide),
      hother 4 (by decide), hother 5 (by decide), hother 6 (by decide), hk, hmu, hW, hC, hb]
  rw [hR]

/-! ### Doubles with special values against exact arithmetic -/

/-- Resistance of `fastSystem` as a function of the thickness `d0`. -/
theorem fast_R_th (d0 : ℝ) :
    heat_flux_R_th Real.exp (fastSystem ℝ) d0 =
      if d0 > 1e-9 then 3323 / 2625 + d0 / 4e8 else 3323 / 2625 := by
  simp only [heat_flux_R_th, calculate_R_th_without_layer_one, fastSystem, fastLayers,
    Layer.thermal_resistance, Layer.k_eff, Layer.new, Real.exp_zero, mul_zero, EPS]
  norm_num

/-- Conductivity at stored index 1 of `fastSystem` is positive. -/
theorem fast_k_eff_pos : 0 < ((fastSystem ℝ).layers 1).k_eff Real.exp (fastSystem ℝ).beta := by
  simp only [fastSystem, fastLayers, Layer.k_eff, Layer.new, Real.exp_zero, mul_zero]
  norm_num

end Lemmas

/-! ## The claims -/

section Claims
variable {α : Type} [LinearOrderedField α]

/-- C1. Type 4 and Type 5 agree on every stack state: Type 5 answers
"IMPOSSIBLE" exactly when Type 4 answers the sentinel 1e18, and "POSSIBLE"
exactly when Type 4 answers a value strictly below 1e18. -/
theorem type5_agrees_with_type4 (exp : α → α) (s : ThermalJacketSystem α) :
    (query_type5_feasibility_check exp s = "IMPOSSIBLE" ↔
        query_type4_minimum_foam_thickness exp s = 1e18) ∧
      (query_type5_feasibility_check exp s = "POSSIBLE" ↔
        query_type4_minimum_foam_thickness exp s < 1e18) := by
  constructor
  · rw [type5_impossible_iff, type4_eq_sentinel_iff]
  · rw [type5_possible_iff, lt_iff_le_and_ne]
    constructor
    · intro h
      refine ⟨type4_le_sentinel exp s, ?_⟩
      rw [Ne, type4_eq_sentinel_iff]
      rintro ⟨h0, h9⟩
      exact h.elim h0 h9
    · rintro ⟨_, hne⟩
      rw [Ne, type4_eq_sentinel_iff] at hne
      by_contra hc
      exact hne ⟨fun h0 => hc (Or.inl h0), fun h9 => hc (Or.inr h9)⟩

/-- C3, counterexample. On the sample with base conductivity `4e8` at stored
index 1, Type 4 answers by the bisection, the smallest thickness within the
cap is `10366400000 / 21` (the flux is 20 there and above 20 below it), and
the answer `r` lies more than 0.004 below it: `r` is not within `1e-8` of the
smallest `d0` satisfying the flux cap. -/
theorem type4_answer_below_smallest_feasible :
    query_type4_minimum_foam_thickness Real.exp (fastSystem ℝ) ≠ 0 ∧
    query_type4_minimum_foam_thickness Real.exp (fastSystem ℝ) ≠ 1e18 ∧
    heat_flux Real.exp (fastSystem ℝ) (10366400000 / 21) ≤ 20 ∧
    (∀ d0 : ℝ, d0 < 10366400000 / 21 → heat_flux Real.exp (fastSystem ℝ) d0 > 20) ∧
    query_type4_minimum_foam_thickness Real.exp (fastSystem ℝ) + 0.004
      < 10366400000 / 21 := by
  have h0 : ¬ heat_flux Real.exp (fastSystem ℝ) 0 ≤ Q_MAX ℝ + EPS ℝ := by
    rw [heat_flux_eq, fast_R_th]
    norm_num [Q_MAX, EPS]
  have h9 : heat_flux Real.exp (fastSystem ℝ) 1e9 ≤ Q_MAX ℝ + EPS ℝ := by
    rw [heat_flux_eq, fast_R_th]
    norm_num [Q_MAX, EPS]
  refine ⟨?_, ?_, ?_, ?_, ?_⟩
  · rw [Ne, type4_eq_zero_iff]
    exact h0
  · rw [Ne, type4_eq_sentinel_iff]
    exact fun h => h.2 h9
  · rw [heat_flux_eq, fast_R_th]
    norm_num
  · intro d0 hd0
    rw [heat_flux_eq, fast_R_th]
    by_cases h : d0 > 1e-9
    · rw [if_pos h]
      have hpos : (0 : ℝ) < 3323 / 2625 + d0 / 4e8 := by
        have : (0 : ℝ) < d0 / 4e8 := div_pos (lt_trans (by norm_num) h) (by norm_num)
        linarith
      have hlt : 3323 / 2625 + d0 / 4e8 < 5 / 2 := by
        have : d0 / 4e8 < (10366400000 / 21) / 4e8 :=
          div_lt_div_of_pos_right hd0 (by norm_num)
        have e : ((10366400000 : ℝ) / 21) / 4e8 = 5 / 2 - 3323 / 2625 := by norm_num
        linarith
      by_cases hs : 3323 / 2625 + d0 / 4e8 < (1e-12 : ℝ)
      · rw [if_pos hs]; norm_num
      · rw [if_neg hs, gt_iff_lt, lt_div_iff₀ hpos]
        linarith
    · rw [if_neg h]
      norm_num
  · rw [type4_of_bisection Real.exp (fastSystem ℝ) h0 h9]
    have hw := bisect_loop_final_width (heat_flux Real.exp (fastSystem ℝ))
    have hleft : Q_MAX ℝ + 1e-10 <
        heat_flux Real.exp (fastSystem ℝ)
          (bisect_loop (heat_flux Real.exp (fastSystem ℝ)) MAX_ITERATIONS
            { left := 0, right := 1e9, iterations := 0 }).left := by
      apply bisect_loop_left_infeasible
      have : Q_MAX ℝ + 1e-10 < Q_MAX ℝ + EPS ℝ := by norm_num [Q_MAX, EPS]
      exact lt_trans this (not_le.mp h0)
    have hL : (bisect_loop (heat_flux Real.exp (fastSystem ℝ)) MAX_ITERATIONS
        { left := 0, right := 1e9, iterations := 0 }).left < 10366400000 / 21 - 0.0041 := by
      by_contra hc
      have hanti := heat_flux_antitone Real.exp (fastSystem ℝ) fast_k_eff_pos _ _
        (not_lt.mp hc)
      have hx : heat_flux Real.exp (fastSystem ℝ) (10366400000 / 21 - 0.0041)
          ≤ Q_MAX ℝ + 1e-10 := by
        rw [heat_flux_eq, fast_R_th]
        norm_num [Q_MAX]
      exact absurd (lt_of_lt_of_le hleft (le_trans hanti hx)) (lt_irrefl _)
    have e : (0.0041 : ℝ) = 0.004 + 0.0001 := by norm_num
    have e8 : (1e-8 : ℝ) < 0.0001 := by norm_num
    linarith

/-- C3, amended. Minimality of the Type 4 answer up to the search tolerance,
in exact arithmetic: when Type 4 returns a value `r` that is neither 0 nor
the sentinel 1e18 (the bisection branch), every thickness `d0 ≤ r − 1e-8`, in
particular every `d0` with `0 ≤ d0 ≤ r − 1e-8`, has `heat_flux(d0) > 20.0`;
so `r` is less than `1e-8` above every thickness within the cap, while `r`
itself is within the cap only up to the tolerance,
`heat_flux(r) ≤ 20.0 + 1e-9`. -/
theorem type4_answer_minimal (exp : α → α) (s : ThermalJacketSystem α)
    (hz : query_type4_minimum_foam_thickness exp s ≠ 0)
    (hs : query_type4_minimum_foam_thickness exp s ≠ 1e18) :
    (∀ d0 : α, d0 ≤ query_type4_minimum_foam_thickness exp s - 1e-8 →
        heat_flux exp s d0 > 20) ∧
      (∀ d0 : α, heat_flux exp s d0 ≤ 20 →
        query_type4_minimum_foam_thickness exp s - 1e-8 < d0) ∧
      heat_flux exp s (query_type4_minimum_foam_thickness exp s) ≤ 20 + 1e-9 := by
  have h0 : ¬ heat_flux exp s 0 ≤ Q_MAX α + EPS α := fun hc =>
    hz ((type4_eq_zero_iff exp s).mpr hc)
  have h9 : heat_flux exp s 1e9 ≤ Q_MAX α + EPS α := by
    by_contra hc
    exact hs (type4_of_large_fails exp s h0 hc)
  have hk : 0 < (s.layers 1).k_eff exp s.beta := by
    by_contra hc
    have := heat_flux_monotone_of_nonpos exp s (not_lt.mp hc) 0 1e9 (by norm_num)
    exact h0 (le_trans this h9)
  have hmain : ∀ d0 : α, d0 ≤ query_type4_minimum_foam_thickness exp s - 1e-8 →
      heat_flux exp s d0 > 20 := by
    intro d0 hd
    rw [type4_of_bisection exp s h0 h9] at hd
    have hw := bisect_loop_final_width (heat_flux exp s)
    have hleft : Q_MAX α + 1e-10 <
        heat_flux exp s (bisect_loop (heat_flux exp s) MAX_ITERATIONS
          { left := 0, right := 1e9, iterations := 0 }).left := by
      apply bisect_loop_left_infeasible
      have : Q_MAX α + 1e-10 < Q_MAX α + EPS α := by norm_num [Q_MAX, EPS]
      exact lt_trans this (not_le.mp h0)
    have hle : d0 ≤ (bisect_loop (heat_flux exp s) MAX_ITERATIONS
        { left := 0, right := 1e9, iterations := 0 }).left := by linarith
    have hanti := heat_flux_antitone exp s hk d0 _ hle
    have hQ : (20 : α) < Q_MAX α + 1e-10 := by norm_num [Q_MAX]
    exact lt_of_lt_of_le (lt_trans hQ hleft) hanti
  refine ⟨hmain, ?_, ?_⟩
  · intro d0 hd0
    by_contra hc
    exact absurd hd0 (not_le.mpr (hmain d0 (not_lt.mp hc)))
  · have hth : Q_MAX α + EPS α = 20 + 1e-9 := by norm_num [Q_MAX, EPS]
    rw [← hth, type4_of_bisection exp s h0 h9]
    exact bisect_loop_right_feasible (heat_flux exp s) MAX_ITERATIONS _ h9

/-- The bisection answer on the sample is at least the search tolerance. -/
theorem sample_type4_ge :
    0 ≤ query_type4_minimum_foam_thickness Real.exp (sampleSystem ℝ) - 1e-8 := by
  have hr : heat_flux Real.exp (sampleSystem ℝ)
        (query_type4_minimum_foam_thickness Real.exp (sampleSystem ℝ))
      ≤ Q_MAX ℝ + EPS ℝ := by
    rw [type4_of_bisection Real.exp (sampleSystem ℝ) sample_zero_fails sample_large_ok]
    exact bisect_loop_right_feasible _ MAX_ITERATIONS _ sample_large_ok
  by_contra hc
  have hlt : query_type4_minimum_foam_thickness Real.exp (sampleSystem ℝ) ≤ 1e-8 := by linarith
  have hk : 0 < ((sampleSystem ℝ).layers 1).k_eff Real.exp (sampleSystem ℝ).beta :=
    Layer.k_eff_pos Real.exp Real.exp_pos _ _ (sample_k_pos 1) (sample_mu_nonneg 1)
      (sample_W_nonneg 1)
  have h1 := heat_flux_antitone Real.exp (sampleSystem ℝ) hk _ _ hlt
  have h2 : ¬ heat_flux Real.exp (sampleSystem ℝ) 1e-8 ≤ Q_MAX ℝ + EPS ℝ := by
    rw [heat_flux_eq, sample_R_th]
    norm_num [Q_MAX, EPS]
  exact h2 (le_trans h1 hr)

/-- Witness of C3 (amended) on the sample stack, at thickness 0. -/
theorem type4_answer_minimal_witness :
    query_type4_minimum_foam_thickness Real.exp (sampleSystem ℝ) ≠ 0 ∧
      query_type4_minimum_foam_thickness Real.exp (sampleSystem ℝ) ≠ 1e18 ∧
      heat_flux Real.exp (sampleSystem ℝ) 0 > 20 :=
  ⟨sample_type4_bisects.1, sample_type4_bisects.2,
    (type4_answer_minimal Real.exp (sampleSystem ℝ) sample_type4_bisects.1
      sample_type4_bisects.2).1 0 sample_type4_ge⟩

/-- C4, counterexample. On a stack inside the data-model ranges (the sample
with base conductivity `1e9` at stored index 1) Type 5 answers
"IMPOSSIBLE", although the thickness `1e10` brings the flux under 20. -/
theorem type5_not_true_feasibility :
    (∀ i, 0 ≤ ((conductiveSystem ℝ).layers i).d ∧
        0 < ((conductiveSystem ℝ).layers i).k ∧
        0 ≤ ((conductiveSystem ℝ).layers i).mu ∧
        0 ≤ ((conductiveSystem ℝ).layers i).W) ∧
      query_type5_feasibility_check Real.exp (conductiveSystem ℝ) = "IMPOSSIBLE" ∧
      ∃ d0 : ℝ, 0 ≤ d0 ∧ heat_flux Real.exp (conductiveSystem ℝ) d0 ≤ 20 := by
  have hR : ∀ d0 : ℝ, heat_flux_R_th Real.exp (conductiveSystem ℝ) d0 =
      if d0 > 1e-9 then 3323 / 2625 + d0 / 1e9 else 3323 / 2625 := by
    intro d0
    simp only [heat_flux_R_th, calculate_R_th_without_layer_one, conductiveSystem,
      conductiveLayers, Layer.thermal_resistance, Layer.k_eff, Layer.new, Real.exp_zero,
      mul_zero, EPS]
    norm_num
  refine ⟨?_, ?_, 1e10, by norm_num, ?_⟩
  · intro i
    fin_cases i <;> norm_num [conductiveSystem, conductiveLayers, Layer.new]
  · rw [type5_impossible_iff]
    constructor
    · rw [heat_flux_eq, hR]; norm_num [Q_MAX, EPS]
    · rw [heat_flux_eq, hR]; norm_num [Q_MAX, EPS]
  · rw [heat_flux_eq, hR]; norm_num

/-- C4, amended. On every stack state whose layers satisfy the data-model
ranges (`d ≥ 0`, `k > 0`, `mu ≥ 0`, `W ≥ 0`, with a positive `exp`), Type 5
answers "POSSIBLE" exactly when some thickness `d0` with `0 ≤ d0 ≤ 1e9` has
`heat_flux(d0) ≤ 20.0 + 1e-9`, and "IMPOSSIBLE" otherwise. -/
theorem type5_decides_bounded_feasibility (exp : α → α) (hexp : ∀ x, 0 < exp x)
    (s : ThermalJacketSystem α)
    (_hd : ∀ i, 0 ≤ (s.layers i).d) (hk : ∀ i, 0 < (s.layers i).k)
    (hmu : ∀ i, 0 ≤ (s.layers i).mu) (hW : ∀ i, 0 ≤ (s.layers i).W) :
    (query_type5_feasibility_check exp s = "POSSIBLE" ↔
        ∃ d0 : α, 0 ≤ d0 ∧ d0 ≤ 1e9 ∧ heat_flux exp s d0 ≤ 20 + 1e-9) ∧
      (query_type5_feasibility_check exp s = "IMPOSSIBLE" ↔
        ¬ ∃ d0 : α, 0 ≤ d0 ∧ d0 ≤ 1e9 ∧ heat_flux exp s d0 ≤ 20 + 1e-9) := by
  have hth : Q_MAX α + EPS α = 20 + 1e-9 := by norm_num [Q_MAX, EPS]
  have hkeff : 0 < (s.layers 1).k_eff exp s.beta :=
    Layer.k_eff_pos exp hexp _ _ (hk 1) (hmu 1) (hW 1)
  have key :
      (heat_flux exp s 0 ≤ Q_MAX α + EPS α ∨ heat_flux exp s 1e9 ≤ Q_MAX α + EPS α) ↔
      ∃ d0 : α, 0 ≤ d0 ∧ d0 ≤ 1e9 ∧ heat_flux exp s d0 ≤ 20 + 1e-9 := by
    rw [hth]
    constructor
    · rintro (h | h)
      · exact ⟨0, le_refl _, by norm_num, h⟩
      · exact ⟨1e9, by norm_num, le_refl _, h⟩
    · rintro ⟨d0, _, h1, h⟩
      exact Or.inr (le_trans (heat_flux_antitone exp s hkeff d0 1e9 h1) h)
  constructor
  · rw [type5_possible_iff, key]
  · rw [type5_impossible_iff, ← key, not_or]

/-- Witness of C4 (amended) on the sample stack, which is inside the
ranges. -/
theorem type5_decides_bounded_feasibility_witness :
    (query_type5_feasibility_check Real.exp (sampleSystem ℝ) = "POSSIBLE" ↔
        ∃ d0 : ℝ, 0 ≤ d0 ∧ d0 ≤ 1e9 ∧ heat_flux Real.exp (sampleSystem ℝ) d0 ≤ 20 + 1e-9) ∧
      (query_type5_feasibility_check Real.exp (sampleSystem ℝ) = "IMPOSSIBLE" ↔
        ¬ ∃ d0 : ℝ, 0 ≤ d0 ∧ d0 ≤ 1e9 ∧
          heat_flux Real.exp (sampleSystem ℝ) d0 ≤ 20 + 1e-9) :=
  type5_decides_bounded_feasibility Real.exp Real.exp_pos (sampleSystem ℝ)
    (fun i => by fin_cases i <;> norm_num [sampleSystem, sampleLayers, Layer.new])
    sample_k_pos sample_mu_nonneg sample_W_nonneg

/-- C5, counterexample. Two stacks that differ only in the stored thickness
at stored index 0 (0.02 against 0.04) have different fluxes at `d0 = 0`:
the flux does depend on the stored thickness of the innermost layer. -/
theorem heat_flux_depends_on_index_zero :
    (∀ i, i ≠ 0 → (thickInnerSystem ℝ).layers i = (sampleSystem ℝ).layers i) ∧
      ((thickInnerSystem ℝ).layers 0).k = ((sampleSystem ℝ).layers 0).k ∧
      ((thickInnerSystem ℝ).layers 0).mu = ((sampleSystem ℝ).layers 0).mu ∧
      ((thickInnerSystem ℝ).layers 0).c = ((sampleSystem ℝ).layers 0).c ∧
      ((thickInnerSystem ℝ).layers 0).W = ((sampleSystem ℝ).layers 0).W ∧
      ((thickInnerSystem ℝ).layers 0).C = ((sampleSystem ℝ).layers 0).C ∧
      (thickInnerSystem ℝ).beta = (sampleSystem ℝ).beta ∧
      heat_flux Real.exp (thickInnerSystem ℝ) 0 ≠ heat_flux Real.exp (sampleSystem ℝ) 0 := by
  refine ⟨?_, ?_, ?_, ?_, ?_, ?_, rfl, ?_⟩
  · intro i hi
    fin_cases i <;>
      first
        | exact absurd rfl hi
        | simp [thickInnerSystem, thickInnerLayers, sampleSystem, sampleLayers]
  · simp [thickInnerSystem, thickInnerLayers, sampleSystem, sampleLayers, Layer.new]
  · simp [thickInnerSystem, thickInnerLayers, sampleSystem, sampleLayers, Layer.new]
  · simp [thickInnerSystem, thickInnerLayers, sampleSystem, sampleLayers, Layer.new]
  · simp [thickInnerSystem, thickInnerLayers, sampleSystem, sampleLayers, Layer.new]
  · simp [thickInnerSystem, thickInnerLayers, sampleSystem, sampleLayers, Layer.new]
  · rw [sample_flux_zero, heat_flux_eq]
    simp only [heat_flux_R_th, calculate_R_th_without_layer_one, thickInnerSystem,
      thickInnerLayers, Layer.thermal_resistance, Layer.k_eff, Layer.new, Real.exp_zero,
      mul_zero, EPS]
    norm_num

/-- C5, amended. The layer `heat_flux` substitutes is the one at stored
index 1 (conceptual index 0): `R_th` is the sum of `thermal_resistance` over
the six layers at stored indices 0, 2, 3, 4, 5, 6, plus `d0 / k_eff` of the
layer at stored index 1 when `d0 > 1e-9`; the flux is `50 / R_th` when
`R_th ≥ 1e-12`; and the flux does not depend on the stored thickness at
stored index 1. -/
theorem heat_flux_substitutes_index_one (exp : α → α) (s : ThermalJacketSystem α) (d0 : α) :
    heat_flux_R_th exp s d0 =
        ((s.layers 0).thermal_resistance exp s.beta + (s.layers 2).thermal_resistance exp s.beta
          + (s.layers 3).thermal_resistance exp s.beta
          + (s.layers 4).thermal_resistance exp s.beta
          + (s.layers 5).thermal_resistance exp s.beta
          + (s.layers 6).thermal_resistance exp s.beta)
        + (if d0 > 1e-9 then d0 / (s.layers 1).k_eff exp s.beta else 0) ∧
      (1e-12 ≤ heat_flux_R_th exp s d0 →
        heat_flux exp s d0 = (37 - (-13)) / heat_flux_R_th exp s d0 ∧
        heat_flux exp s d0 = 50 / heat_flux_R_th exp s d0) ∧
      (∀ d' : α,
        heat_flux exp
            { s with layers := Function.update s.layers 1 { s.layers 1 with d := d' } } d0
          = heat_flux exp s d0) := by
  refine ⟨?_, ?_, ?_⟩
  · simp only [heat_flux_R_th, calculate_R_th_without_layer_one, EPS]
    by_cases h : d0 > 1e-9
    · simp only [if_pos h]
    · simp only [if_neg h, add_zero]
  · intro h
    rw [heat_flux_eq, if_neg (not_lt.mpr h)]
    norm_num
  · intro d'
    rw [heat_flux_eq, heat_flux_eq]
    have : heat_flux_R_th exp
        { s with layers := Function.update s.layers 1 { s.layers 1 with d := d' } } d0
        = heat_flux_R_th exp s d0 := by
      simp [heat_flux_R_th, calculate_R_th_without_layer_one, Function.update, Layer.k_eff]
    rw [this]

/-- Witness of C5 (amended) on the sample stack with no foam, where the
resistance is above `1e-12`. -/
theorem heat_flux_substitutes_index_one_witness :
    heat_flux Real.exp (sampleSystem ℝ) 0 = 50 / heat_flux_R_th Real.exp (sampleSystem ℝ) 0 :=
  ((heat_flux_substitutes_index_one Real.exp (sampleSystem ℝ) 0).2.1
    (by rw [sample_R_th]; norm_num)).2

/-- C6. Inside the data-model ranges (`k > 0`, `mu ≥ 0`, `W ≥ 0`, with a
positive `exp`) the flux is non-increasing in `d0`: for `d0 ≤ d0'`, in
particular for `0 ≤ d0 ≤ d0'`, `heat_flux(d0') ≤ heat_flux(d0)`, across the
`1e-9` cutoff and the sentinel branch alike. -/
theorem heat_flux_nonincreasing (exp : α → α) (hexp : ∀ x, 0 < exp x)
    (s : ThermalJacketSystem α)
    (hk : ∀ i, 0 < (s.layers i).k) (hmu : ∀ i, 0 ≤ (s.layers i).mu)
    (hW : ∀ i, 0 ≤ (s.layers i).W)
    (d0 d0' : α) (h : d0 ≤ d0') :
    heat_flux exp s d0' ≤ heat_flux exp s d0 :=
  heat_flux_antitone exp s (Layer.k_eff_pos exp hexp _ _ (hk 1) (hmu 1) (hW 1)) d0 d0' h

/-- Witness of C6 on the sample stack, from no foam (below the cutoff) to
one metre. -/
theorem heat_flux_nonincreasing_witness :
    heat_flux Real.exp (sampleSystem ℝ) 1 ≤ heat_flux Real.exp (sampleSystem ℝ) 0 :=
  heat_flux_nonincreasing Real.exp Real.exp_pos (sampleSystem ℝ) sample_k_pos sample_mu_nonneg
    sample_W_nonneg 0 1 (by norm_num)

/-- C7. Moisture never reduces the required thickness: inside the ranges
(`k > 0`, `mu ≥ 0`, `W ≥ 0`; `d ≥ 0` is not needed) and for `t ≥ 0`, the
Type 4 answer after Type 1 with `t` is at least the Type 4 answer before. -/
theorem type4_monotone_under_exposure (exp : α → α) (hexp : ∀ x, 0 < exp x)
    (s : ThermalJacketSystem α)
    (hk : ∀ i, 0 < (s.layers i).k) (hmu : ∀ i, 0 ≤ (s.layers i).mu)
    (hW : ∀ i, 0 ≤ (s.layers i).W) (t : α) (ht : 0 ≤ t) :
    query_type4_minimum_foam_thickness exp s ≤
      query_type4_minimum_foam_thickness exp (query_type1_environmental_exposure s t) :=
  type4_le_of_flux_le exp s _ (heat_flux_le_after_type1 exp hexp s t hk hmu hW ht)

/-- Witness of C7: the sample input, queries `4`, then `1 10`, then `4`. -/
theorem type4_monotone_under_exposure_witness :
    query_type4_minimum_foam_thickness Real.exp (sampleSystem ℝ) ≤
      query_type4_minimum_foam_thickness Real.exp
        (query_type1_environmental_exposure (sampleSystem ℝ) 10) :=
  type4_monotone_under_exposure Real.exp Real.exp_pos (sampleSystem ℝ) sample_k_pos
    sample_mu_nonneg sample_W_nonneg 10 (by norm_num)

/-- C8, counterexample. On the sample after ten hours of exposure (a state
that carries moisture), Type 1 with `t = 0` changes the moisture of the
layer at stored index 5. -/
theorem type1_zero_changes_moisture :
    ((query_type1_environmental_exposure
        (query_type1_environmental_exposure (sampleSystem ℝ) 10) 0).layers 5).W
      ≠ ((query_type1_environmental_exposure (sampleSystem ℝ) 10).layers 5).W := by
  obtain ⟨h6, hstep, _, _⟩ :=
    type1_spec (query_type1_environmental_exposure (sampleSystem ℝ) 10) 0
  obtain ⟨g6, _, gfr, _⟩ := type1_spec (sampleSystem ℝ) 10
  have e := hstep 5
  have c5 : Fin.castSucc (5 : Fin 6) = (5 : Fin 7) := rfl
  have s5 : Fin.succ (5 : Fin 6) = (6 : Fin 7) := rfl
  rw [c5, s5, h6, g6, (gfr 6).2.2.1] at e
  rw [e]
  have hv : (((sampleSystem ℝ).layers 6).W + 10 * MOISTURE_RATE ℝ + 0 * MOISTURE_RATE ℝ)
      * ((sampleSystem ℝ).layers 6).mu = 1 / 200 := by
    norm_num [sampleSystem, sampleLayers, Layer.new, MOISTURE_RATE]
  rw [hv]
  intro h
  linarith

/-- C8, amended. Type 1 with `t = 0` leaves the moisture of all seven layers
as it was exactly on the states in which `W_i * mu_i = 0` for every stored
index `i` from 1 to 6, such as every state without accumulated moisture. -/
theorem type1_zero_noop_iff (s : ThermalJacketSystem α) :
    (∀ k : Fin 7, ((query_type1_environmental_exposure s 0).layers k).W = (s.layers k).W) ↔
      ∀ i : Fin 6, (s.layers i.succ).W * (s.layers i.succ).mu = 0 := by
  obtain ⟨h6, hstep, _, _⟩ := type1_spec s 0
  rw [zero_mul, add_zero] at h6
  constructor
  · intro h i
    have := hstep i
    rw [h i.castSucc, h i.succ] at this
    linarith
  · intro h k
    induction k using Fin.reverseInduction with
    | last => exact h6
    | cast j ih => rw [hstep j, ih, h j, add_zero]

/-- C9, counterexample. On the sample after the stress `2 3 5.0` of the
sample input (a state that carries compression), Type 2 on the same layer
with `x = 0` changes the compression of the layer at stored index 5. -/
theorem type2_zero_changes_compression :
    ∃ s1 s2 : ThermalJacketSystem ℝ,
      query_type2_mechanical_stress (sampleSystem ℝ) 3 5 = some s1 ∧
      query_type2_mechanical_stress s1 3 0 = some s2 ∧
      (s2.layers 5).C ≠ (s1.layers 5).C := by
  have c4 : Fin.castSucc (4 : Fin 6) = (4 : Fin 7) := rfl
  have s4 : Fin.succ (4 : Fin 6) = (5 : Fin 7) := rfl
  have key : ∀ L : Fin 7 → Layer ℝ,
      (type2_loop 6 (Function.update L 4 { L 4 with C := (L 4).C + 0 }) (4 : Fin 7).val 5).C
        = (L 5).C + (L 4).C * (L 4).c := by
    intro L
    obtain ⟨b4, bstep, _, _⟩ := type2_loop_spec L 4 0
    have e := bstep 4 (by decide)
    rw [c4, s4, b4] at e
    rw [e, add_zero]
  obtain ⟨a4, _, _, afr⟩ := type2_loop_spec (sampleSystem ℝ).layers 4 5
  refine ⟨_, _, type2_eq_some (sampleSystem ℝ) 3 5 4 rfl, type2_eq_some _ 3 0 4 rfl, ?_⟩
  dsimp only
  rw [key, a4, (afr 4).2.2.2.1]
  have hv : (((sampleSystem ℝ).layers 4).C + 5) * ((sampleSystem ℝ).layers 4).c = 23 / 20 := by
    norm_num [sampleSystem, sampleLayers, Layer.new]
  rw [hv]
  intro h
  linarith

/-- C9, amended. For a conceptual index `i` in `[−1, 5]`, Type 2 with
`x = 0` leaves the compression of all seven layers as it was exactly on the
states in which `C_idx * c_idx = 0` for every stored index `idx` from
`i + 1` to 5, such as every state without accumulated compression; for
`i = 5` that is every state. -/
theorem type2_zero_noop_characterised (s : ThermalJacketSystem α) (i : Int)
    (hi : -1 ≤ i ∧ i ≤ 5) :
    ∃ s' : ThermalJacketSystem α,
      query_type2_mechanical_stress s i 0 = some s' ∧
      ((∀ k : Fin 7, (s'.layers k).C = (s.layers k).C) ↔
        ∀ idx : Fin 7, i + 1 ≤ (idx.val : Int) → idx.val < 6 →
          (s.layers idx).C * (s.layers idx).c = 0) := by
  have hj : (((⟨(i + 1).toNat, by omega⟩ : Fin 7)).val : Int) = i + 1 := by
    simp only
    omega
  refine ⟨_, type2_eq_some s i 0 ⟨(i + 1).toNat, by omega⟩ hj, ?_⟩
  dsimp only
  rw [type2_zero_noop_iff]
  constructor
  · intro h idx h1 h2
    refine h idx ?_ h2
    rw [Fin.le_def]
    simp only
    omega
  · intro h idx h1 h2
    refine h idx ?_ h2
    rw [Fin.le_def] at h1
    simp only at h1
    omega

/-- Witness of C9 (amended): the sample stack, conceptual index 3. -/
theorem type2_zero_noop_characterised_witness :
    ∃ s' : ThermalJacketSystem ℝ,
      query_type2_mechanical_stress (sampleSystem ℝ) 3 0 = some s' ∧
      ((∀ k : Fin 7, (s'.layers k).C = ((sampleSystem ℝ).layers k).C) ↔
        ∀ idx : Fin 7, (3 : Int) + 1 ≤ (idx.val : Int) → idx.val < 6 →
          ((sampleSystem ℝ).layers idx).C * ((sampleSystem ℝ).layers idx).c = 0) :=
  type2_zero_noop_characterised (sampleSystem ℝ) 3 (by norm_num)

/-- C10. Type 1 postcondition: `W'_6 = W_6 + 0.01 * t`; for each stored
index `i` from 6 down to 1, `W'_{i-1} = W_{i-1} + W'_i * mu_i` (written
with `i - 1 = j.castSucc` and `i = j.succ` for `j` in `0..5`); and `d`, `k`,
`mu`, `c`, `C` of every layer, and `beta`, are unchanged. -/
theorem type1_postcondition (s : ThermalJacketSystem α) (t : α) :
    ((query_type1_environmental_exposure s t).layers 6).W = (s.layers 6).W + 0.01 * t ∧
      (∀ j : Fin 6, ((query_type1_environmental_exposure s t).layers j.castSucc).W
        = (s.layers j.castSucc).W
          + ((query_type1_environmental_exposure s t).layers j.succ).W
            * (s.layers j.succ).mu) ∧
      (∀ i : Fin 7,
        ((query_type1_environmental_exposure s t).layers i).d = (s.layers i).d ∧
        ((query_type1_environmental_exposure s t).layers i).k = (s.layers i).k ∧
        ((query_type1_environmental_exposure s t).layers i).mu = (s.layers i).mu ∧
        ((query_type1_environmental_exposure s t).layers i).c = (s.layers i).c ∧
        ((query_type1_environmental_exposure s t).layers i).C = (s.layers i).C) ∧
      (query_type1_environmental_exposure s t).beta = s.beta := by
  obtain ⟨h6, hstep, hfr, hb⟩ := type1_spec s t
  refine ⟨?_, hstep, hfr, hb⟩
  rw [h6, mul_comm]
  norm_num [MOISTURE_RATE]

/-- C11. Type 2 postcondition and frame: for a conceptual index `i` in
`[−1, 5]` (stored index `j = i + 1`) and every `x`, Type 2 returns a stack
with `C'_j = C_j + x`, with `C'_{idx+1} = C_{idx+1} + C'_idx * c_idx` for
each stored index `idx` from `j` to 5 (written with `idx = m.castSucc` and
`idx + 1 = m.succ` for `m` in `0..5`), with every layer at a stored index
below `j` unchanged, and with `d`, `k`, `mu`, `c`, `W` of every layer and
`beta` unchanged. -/
theorem type2_postcondition (s : ThermalJacketSystem α) (i : Int) (x : α)
    (hi : -1 ≤ i ∧ i ≤ 5) :
    ∃ (s' : ThermalJacketSystem α) (j : Fin 7),
      query_type2_mechanical_stress s i x = some s' ∧ (j.val : Int) = i + 1 ∧
      (s'.layers j).C = (s.layers j).C + x ∧
      (∀ m : Fin 6, j ≤ m.castSucc →
        (s'.layers m.succ).C
          = (s.layers m.succ).C + (s'.layers m.castSucc).C * (s.layers m.castSucc).c) ∧
      (∀ k : Fin 7, k < j → s'.layers k = s.layers k) ∧
      (∀ k : Fin 7,
        (s'.layers k).d = (s.layers k).d ∧ (s'.layers k).k = (s.layers k).k ∧
        (s'.layers k).mu = (s.layers k).mu ∧ (s'.layers k).c = (s.layers k).c ∧
        (s'.layers k).W = (s.layers k).W) ∧
      s'.beta = s.beta := by
  have hj : (((⟨(i + 1).toNat, by omega⟩ : Fin 7)).val : Int) = i + 1 := by
    simp only
    omega
  obtain ⟨h1, h2, h3, h4⟩ := type2_loop_spec s.layers ⟨(i + 1).toNat, by omega⟩ x
  exact ⟨_, ⟨(i + 1).toNat, by omega⟩, type2_eq_some s i x _ hj, hj, h1, h2, h3, h4, rfl⟩

/-- Witness of C11: the stress `2 3 5.0` of the sample input. -/
theorem type2_postcondition_witness :
    ∃ (s' : ThermalJacketSystem ℝ) (j : Fin 7),
      query_type2_mechanical_stress (sampleSystem ℝ) 3 5 = some s' ∧ (j.val : Int) = 3 + 1 ∧
      (s'.layers j).C = ((sampleSystem ℝ).layers j).C + 5 ∧
      (∀ m : Fin 6, j ≤ m.castSucc →
        (s'.layers m.succ).C
          = ((sampleSystem ℝ).layers m.succ).C
            + (s'.layers m.castSucc).C * ((sampleSystem ℝ).layers m.castSucc).c) ∧
      (∀ k : Fin 7, k < j → s'.layers k = (sampleSystem ℝ).layers k) ∧
      (∀ k : Fin 7,
        (s'.layers k).d = ((sampleSystem ℝ).layers k).d ∧
        (s'.layers k).k = ((sampleSystem ℝ).layers k).k ∧
        (s'.layers k).mu = ((sampleSystem ℝ).layers k).mu ∧
        (s'.layers k).c = ((sampleSystem ℝ).layers k).c ∧
        (s'.layers k).W = ((sampleSystem ℝ).layers k).W) ∧
      s'.beta = (sampleSystem ℝ).beta :=
  type2_postcondition (sampleSystem ℝ) 3 5 (by norm_num)

/-- C12. Type 3 postcondition and frame: for a conceptual index `i` in
`[−1, 5]` and every `(d, k, mu, c)`, Type 3 returns a stack whose layer at
stored index `i + 1` is exactly `(d, k, mu, c)` with `W = 0` and `C = 0`,
whatever it had accumulated, while the other six layers (all six fields) and
`beta` are unchanged. -/
theorem type3_postcondition (s : ThermalJacketSystem α) (i : Int) (d k mu c : α)
    (hi : -1 ≤ i ∧ i ≤ 5) :
    ∃ s' : ThermalJacketSystem α,
      query_type3_replace_layer s i d k mu c = some s' ∧
      (∀ idx : Fin 7, (idx.val : Int) = i + 1 →
        s'.layers idx = { d := d, k := k, mu := mu, c := c, W := 0, C := 0 }) ∧
      (∀ idx : Fin 7, (idx.val : Int) ≠ i + 1 → s'.layers idx = s.layers idx) ∧
      s'.beta = s.beta := by
  have hj : (((⟨(i + 1).toNat, by omega⟩ : Fin 7)).val : Int) = i + 1 := by
    simp only
    omega
  refine ⟨_, type3_eq_some s i d k mu c ⟨(i + 1).toNat, by omega⟩ hj, ?_, ?_, rfl⟩
  · intro idx hidx
    have : idx = ⟨(i + 1).toNat, by omega⟩ := by
      apply Fin.ext
      simp only
      omega
    rw [this]
    simp only [Function.update_same]
  · intro idx hidx
    have : idx ≠ ⟨(i + 1).toNat, by omega⟩ := by
      intro h
      apply hidx
      rw [h]
      exact hj
    simp only [Function.update_noteq this]

/-- Witness of C12: replacing conceptual layer 0 of the sample after ten
hours of exposure. -/
theorem type3_postcondition_witness :
    ∃ s' : ThermalJacketSystem ℝ,
      query_type3_replace_layer (query_type1_environmental_exposure (sampleSystem ℝ) 10)
          0 0.08 0.03 0.15 0.25 = some s' ∧
      (∀ idx : Fin 7, (idx.val : Int) = 0 + 1 →
        s'.layers idx = { d := 0.08, k := 0.03, mu := 0.15, c := 0.25, W := 0, C := 0 }) ∧
      (∀ idx : Fin 7, (idx.val : Int) ≠ 0 + 1 →
        s'.layers idx = (query_type1_environmental_exposure (sampleSystem ℝ) 10).layers idx) ∧
      s'.beta = (query_type1_environmental_exposure (sampleSystem ℝ) 10).beta :=
  type3_postcondition (query_type1_environmental_exposure (sampleSystem ℝ) 10)
    0 0.08 0.03 0.15 0.25 (by norm_num)

/-- C13. Type 3 round trip and idempotence: for a conceptual index `i` in
`[−1, 5]` (stored index `j = i + 1`), Type 3 with the `(d, k, mu, c)` already
stored in that layer returns the original stack except that the layer's `W`
and `C` are 0; and for every `(d, k, mu, c)`, applying the same Type 3 to its
own result returns that result again. -/
theorem type3_round_trip (s : ThermalJacketSystem α) (i : Int) (hi : -1 ≤ i ∧ i ≤ 5) :
    ∃ j : Fin 7, (j.val : Int) = i + 1 ∧
      query_type3_replace_layer s i (s.layers j).d (s.layers j).k (s.layers j).mu
          (s.layers j).c
        = some { s with layers :=
            (Function.update s.layers j { s.layers j with W := 0, C := 0 }) } ∧
      ∀ d k mu c : α, ∃ s1 : ThermalJacketSystem α,
        query_type3_replace_layer s i d k mu c = some s1 ∧
        query_type3_replace_layer s1 i d k mu c = some s1 := by
  have hj : (((⟨(i + 1).toNat, by omega⟩ : Fin 7)).val : Int) = i + 1 := by
    simp only
    omega
  refine ⟨⟨(i + 1).toNat, by omega⟩, hj, ?_, ?_⟩
  · rw [type3_eq_some s i _ _ _ _ _ hj]
  · intro d k mu c
    refine ⟨_, type3_eq_some s i d k mu c _ hj, ?_⟩
    rw [type3_eq_some _ i d k mu c _ hj]
    simp only [Function.update_idem]

/-- Witness of C13: conceptual layer 3 of the sample after ten hours of
exposure. -/
theorem type3_round_trip_witness :
    ∃ j : Fin 7, (j.val : Int) = 3 + 1 ∧
      query_type3_replace_layer (query_type1_environmental_exposure (sampleSystem ℝ) 10) 3
          ((query_type1_environmental_exposure (sampleSystem ℝ) 10).layers j).d
          ((query_type1_environmental_exposure (sampleSystem ℝ) 10).layers j).k
          ((query_type1_environmental_exposure (sampleSystem ℝ) 10).layers j).mu
          ((query_type1_environmental_exposure (sampleSystem ℝ) 10).layers j).c
        = some { (query_type1_environmental_exposure (sampleSystem ℝ) 10) with layers :=
            (Function.update (query_type1_environmental_exposure (sampleSystem ℝ) 10).layers j
              { (query_type1_environmental_exposure (sampleSystem ℝ) 10).layers j with
                W := 0, C := 0 }) } ∧
      ∀ d k mu c : ℝ, ∃ s1 : ThermalJacketSystem ℝ,
        query_type3_replace_layer (query_type1_environmental_exposure (sampleSystem ℝ) 10)
          3 d k mu c = some s1 ∧
        query_type3_replace_layer s1 3 d k mu c = some s1 :=
  type3_round_trip (query_type1_environmental_exposure (sampleSystem ℝ) 10) 3 (by norm_num)

/-- C14. Termination of the Type 4 search: whatever the flux function and
the interval, the loop started with `iterations = 0` is left after at most
100 iterations with its condition false, and allowing more iterations gives
the same state; so Type 4 answers 0, the sentinel, or the right end of that
final state, and Type 5, which has no loop, answers one of its two
strings. -/
theorem type4_search_terminates (exp : α → α) (s : ThermalJacketSystem α) :
    (∀ (q : α → α) (left right : α),
      (bisect_loop q MAX_ITERATIONS
          { left := left, right := right, iterations := 0 }).iterations ≤ 100 ∧
      ¬ ((bisect_loop q MAX_ITERATIONS
            { left := left, right := right, iterations := 0 }).right
          - (bisect_loop q MAX_ITERATIONS
            { left := left, right := right, iterations := 0 }).left > 1e-8 ∧
        (bisect_loop q MAX_ITERATIONS
          { left := left, right := right, iterations := 0 }).iterations < 100) ∧
      ∀ m : Nat,
        bisect_loop q (MAX_ITERATIONS + m) { left := left, right := right, iterations := 0 }
          = bisect_loop q MAX_ITERATIONS { left := left, right := right, iterations := 0 }) ∧
      (query_type4_minimum_foam_thickness exp s = 0 ∨
        query_type4_minimum_foam_thickness exp s = 1e18 ∨
        query_type4_minimum_foam_thickness exp s =
          (bisect_loop (heat_flux exp s) MAX_ITERATIONS
            { left := 0, right := 1e9, iterations := 0 }).right) ∧
      (query_type5_feasibility_check exp s = "POSSIBLE" ∨
        query_type5_feasibility_check exp s = "IMPOSSIBLE") := by
  refine ⟨?_, ?_, type5_values exp s⟩
  · intro q left right
    have h := bisect_loop_capped q MAX_ITERATIONS
      { left := left, right := right, iterations := 0 } (Nat.zero_le _) (le_refl _)
    exact ⟨h.1, h.2, bisect_loop_stable q MAX_ITERATIONS _ h.2⟩
  · by_cases h0 : heat_flux exp s 0 ≤ Q_MAX α + EPS α
    · exact Or.inl (type4_of_zero_ok exp s h0)
    · by_cases h9 : heat_flux exp s 1e9 ≤ Q_MAX α + EPS α
      · exact Or.inr (Or.inr (type4_of_bisection exp s h0 h9))
      · exact Or.inr (Or.inl (type4_of_large_fails exp s h0 h9))

/-- C16. Layer resistance is non-negative: if `d ≥ 0` and
`k_eff(β) = k * (1 + mu * W) * exp(β * C) > 0`, then
`thermal_resistance(β) ≥ 0`, where `thermal_resistance(β)` is 0 when
`d < 1e-9` and `d / k_eff(β)` otherwise. -/
theorem thermal_resistance_nonneg (exp : α → α) (l : Layer α) (beta : α)
    (hd : 0 ≤ l.d) (hk : 0 < l.k * (1 + l.mu * l.W) * exp (beta * l.C)) :
    l.k_eff exp beta = l.k * (1 + l.mu * l.W) * exp (beta * l.C) ∧
      l.thermal_resistance exp beta = (if l.d < 1e-9 then 0 else l.d / l.k_eff exp beta) ∧
      0 ≤ l.thermal_resistance exp beta := by
  refine ⟨rfl, ?_, ?_⟩
  · simp only [Layer.thermal_resistance, EPS]
  · unfold Layer.thermal_resistance
    by_cases h : l.d < EPS α
    · rw [if_pos h]
    · rw [if_neg h]
      exact div_nonneg hd (le_of_lt hk)

/-- Witness of C16: the layer at stored index 1 of the sample. -/
theorem thermal_resistance_nonneg_witness :
    0 ≤ ((sampleSystem ℝ).layers 1).thermal_resistance Real.exp 0.5 :=
  (thermal_resistance_nonneg Real.exp ((sampleSystem ℝ).layers 1) 0.5
    (by norm_num [sampleSystem, sampleLayers, Layer.new])
    (by norm_num [sampleSystem, sampleLayers, Layer.new, Real.exp_zero])).2.2

/-- C17. The Type 5 trend heuristic is redundant, on every stack state:
Type 5 is the function of its two direct checks, answering "POSSIBLE"
exactly when `heat_flux(0) ≤ 20.0 + 1e-9` or `heat_flux(1e9) ≤ 20.0 + 1e-9`;
the probe at `1e6` and `1e7` never succeeds when both checks fail; and the
last `return "POSSIBLE"` is never reached. -/
theorem type5_trend_redundant (exp : α → α) (s : ThermalJacketSystem α) :
    query_type5_feasibility_check exp s = type5_direct_checks exp s ∧
      (query_type5_feasibility_check exp s = "POSSIBLE" ↔
        heat_flux exp s 0 ≤ 20 + 1e-9 ∨ heat_flux exp s 1e9 ≤ 20 + 1e-9) ∧
      ¬ (¬ heat_flux exp s 0 ≤ 20 + 1e-9 ∧ ¬ heat_flux exp s 1e9 ≤ 20 + 1e-9 ∧
        (heat_flux exp s 1e7 < heat_flux exp s 1e6 ∧ heat_flux exp s 1e7 ≤ 20 + 1e-9)) ∧
      ¬ (¬ heat_flux exp s 0 ≤ 20 + 1e-9 ∧ ¬ heat_flux exp s 1e9 ≤ 20 + 1e-9 ∧
        ¬ (heat_flux exp s 1e7 < heat_flux exp s 1e6 ∧ heat_flux exp s 1e7 ≤ 20 + 1e-9) ∧
        ¬ heat_flux exp s 1e9 > 20 - 1e-9) := by
  have hth : Q_MAX α + EPS α = 20 + 1e-9 := by norm_num [Q_MAX, EPS]
  have hp := type5_possible_iff exp s
  have hi := type5_impossible_iff exp s
  rw [hth] at hp hi
  refine ⟨?_, hp, ?_, ?_⟩
  · unfold type5_direct_checks
    by_cases h : heat_flux exp s 0 ≤ 20 + 1e-9 ∨ heat_flux exp s 1e9 ≤ 20 + 1e-9
    · rw [if_pos h]
      exact hp.mpr h
    · rw [if_neg h]
      rw [not_or] at h
      exact hi.mpr h
  · rintro ⟨_, h9, ht⟩
    rw [← hth] at h9 ht
    exact type5_trend_dead exp s h9 ht
  · rintro ⟨_, h9, _, hlast⟩
    apply hlast
    have : (20 : α) - 1e-9 < 20 + 1e-9 := by norm_num
    exact lt_trans this (not_le.mp h9)

/-- C18. Moisture stays non-negative: "every layer has `W ≥ 0` and
`mu ≥ 0`" holds in the state `read_input` builds from non-negative `mu` (where
every `W` is 0); Type 1 with `t ≥ 0` preserves it and lowers no `W`; Type 2
with `i` in `[−1, 5]` preserves it and changes no `W`; Type 3 with `i` in
`[−1, 5]` and a replacement `mu ≥ 0` preserves it. -/
theorem moisture_invariant :
    (∀ (input : Fin 7 → α × α × α × α) (beta : α), (∀ i, 0 ≤ (input i).2.2.1) →
      ∀ i, ((read_input input beta).layers i).W = 0 ∧
        0 ≤ ((read_input input beta).layers i).W ∧
        0 ≤ ((read_input input beta).layers i).mu) ∧
    (∀ (s : ThermalJacketSystem α) (t : α),
      (∀ i, 0 ≤ (s.layers i).W ∧ 0 ≤ (s.layers i).mu) → 0 ≤ t →
      (∀ i, 0 ≤ ((query_type1_environmental_exposure s t).layers i).W ∧
        0 ≤ ((query_type1_environmental_exposure s t).layers i).mu) ∧
      ∀ i, (s.layers i).W ≤ ((query_type1_environmental_exposure s t).layers i).W) ∧
    (∀ (s : ThermalJacketSystem α) (i : Int) (x : α),
      (∀ k, 0 ≤ (s.layers k).W ∧ 0 ≤ (s.layers k).mu) → -1 ≤ i ∧ i ≤ 5 →
      ∃ s' : ThermalJacketSystem α, query_type2_mechanical_stress s i x = some s' ∧
        (∀ k, 0 ≤ (s'.layers k).W ∧ 0 ≤ (s'.layers k).mu) ∧
        ∀ k, (s'.layers k).W = (s.layers k).W) ∧
    (∀ (s : ThermalJacketSystem α) (i : Int) (d k mu c : α),
      (∀ idx, 0 ≤ (s.layers idx).W ∧ 0 ≤ (s.layers idx).mu) → -1 ≤ i ∧ i ≤ 5 → 0 ≤ mu →
      ∃ s' : ThermalJacketSystem α, query_type3_replace_layer s i d k mu c = some s' ∧
        ∀ idx, 0 ≤ (s'.layers idx).W ∧ 0 ≤ (s'.layers idx).mu) := by
  refine ⟨?_, ?_, ?_, ?_⟩
  · intro input beta h i
    simp only [read_input, Layer.new, le_refl, true_and]
    exact h i
  · intro s t hinv ht
    obtain ⟨_, _, hfr, _⟩ := type1_spec s t
    have hle := type1_W_le s t (fun i => (hinv i).2) (fun i => (hinv i).1) ht
    refine ⟨fun i => ⟨le_trans (hinv i).1 (hle i), ?_⟩, hle⟩
    rw [(hfr i).2.2.1]
    exact (hinv i).2
  · intro s i x hinv hi
    have hj : (((⟨(i + 1).toNat, by omega⟩ : Fin 7)).val : Int) = i + 1 := by
      simp only
      omega
    obtain ⟨_, _, _, hfr⟩ := type2_loop_spec s.layers ⟨(i + 1).toNat, by omega⟩ x
    refine ⟨_, type2_eq_some s i x _ hj, ?_, fun k => (hfr k).2.2.2.2⟩
    intro k
    dsimp only
    rw [(hfr k).2.2.2.2, (hfr k).2.2.1]
    exact hinv k
  · intro s i d k mu c hinv hi hmu
    have hj : (((⟨(i + 1).toNat, by omega⟩ : Fin 7)).val : Int) = i + 1 := by
      simp only
      omega
    refine ⟨_, type3_eq_some s i d k mu c ⟨(i + 1).toNat, by omega⟩ hj, ?_⟩
    intro idx
    dsimp only
    by_cases h : idx = ⟨(i + 1).toNat, by omega⟩
    · rw [h]
      simp only [Function.update_same, le_refl, true_and]
      exact hmu
    · simp only [Function.update_noteq h]
      exact hinv idx

/-- Witness of C18: the four parts, on a stack read from seven copies of the
first sample tuple, and on the sample with the queries `1 10`, `2 3 5.0` and
a replacement of conceptual layer 0. -/
theorem moisture_invariant_witness :
    (∀ i,
      ((read_input (fun _ => ((0.02 : ℝ), (0.04 : ℝ), (0.1 : ℝ), (0.2 : ℝ))) 0.5).layers
        i).W = 0 ∧
      0 ≤ ((read_input (fun _ => ((0.02 : ℝ), (0.04 : ℝ), (0.1 : ℝ), (0.2 : ℝ))) 0.5).layers
        i).W ∧
      0 ≤ ((read_input (fun _ => ((0.02 : ℝ), (0.04 : ℝ), (0.1 : ℝ), (0.2 : ℝ))) 0.5).layers
        i).mu) ∧
    ((∀ i, 0 ≤ ((query_type1_environmental_exposure (sampleSystem ℝ) 10).layers i).W ∧
        0 ≤ ((query_type1_environmental_exposure (sampleSystem ℝ) 10).layers i).mu) ∧
      ∀ i, ((sampleSystem ℝ).layers i).W
        ≤ ((query_type1_environmental_exposure (sampleSystem ℝ) 10).layers i).W) ∧
    (∃ s' : ThermalJacketSystem ℝ,
      query_type2_mechanical_stress (sampleSystem ℝ) 3 5 = some s' ∧
      (∀ k, 0 ≤ (s'.layers k).W ∧ 0 ≤ (s'.layers k).mu) ∧
      ∀ k, (s'.layers k).W = ((sampleSystem ℝ).layers k).W) ∧
    (∃ s' : ThermalJacketSystem ℝ,
      query_type3_replace_layer (sampleSystem ℝ) 0 0.08 0.03 0.15 0.25 = some s' ∧
      ∀ idx, 0 ≤ (s'.layers idx).W ∧ 0 ≤ (s'.layers idx).mu) :=
  ⟨(@moisture_invariant ℝ _).1 _ 0.5 (fun _ => by norm_num),
    (@moisture_invariant ℝ _).2.1 (sampleSystem ℝ) 10
      (fun i => ⟨sample_W_nonneg i, sample_mu_nonneg i⟩) (by norm_num),
    (@moisture_invariant ℝ _).2.2.1 (sampleSystem ℝ) 3 5
      (fun i => ⟨sample_W_nonneg i, sample_mu_nonneg i⟩) (by norm_num),
    (@moisture_invariant ℝ _).2.2.2 (sampleSystem ℝ) 0 0.08 0.03 0.15 0.25
      (fun i => ⟨sample_W_nonneg i, sample_mu_nonneg i⟩) (by norm_num) (by norm_num)⟩

/-- C19. The iteration cap is never the binding bound: on every stack
state, the search of Type 4 stopped after `n` iterations has run
`min n 57` of them, at width `1e9 / 2 ^ (min n 57)`, with
`0 ≤ left < right ≤ 1e9`; run with the cap of 100 it stops after exactly 57
iterations, by the width test (the width `1e9 / 2 ^ 57` is below `1e-8`, the
width `1e9 / 2 ^ 56` one iteration earlier is not) and with the counter
below the cap. -/
theorem bisection_exits_by_width (exp : α → α) (s : ThermalJacketSystem α) :
    (∀ n : Nat,
      (bisect_loop (heat_flux exp s) n
          { left := 0, right := 1e9, iterations := 0 }).iterations = min n 57 ∧
      (bisect_loop (heat_flux exp s) n { left := 0, right := 1e9, iterations := 0 }).right
        - (bisect_loop (heat_flux exp s) n { left := 0, right := 1e9, iterations := 0 }).left
          = 1e9 / 2 ^ (min n 57) ∧
      0 ≤ (bisect_loop (heat_flux exp s) n { left := 0, right := 1e9, iterations := 0 }).left ∧
      (bisect_loop (heat_flux exp s) n { left := 0, right := 1e9, iterations := 0 }).left
        < (bisect_loop (heat_flux exp s) n { left := 0, right := 1e9, iterations := 0 }).right ∧
      (bisect_loop (heat_flux exp s) n { left := 0, right := 1e9, iterations := 0 }).right
        ≤ 1e9) ∧
    (bisect_loop (heat_flux exp s) MAX_ITERATIONS
        { left := 0, right := 1e9, iterations := 0 }).iterations = 57 ∧
    (bisect_loop (heat_flux exp s) MAX_ITERATIONS
        { left := 0, right := 1e9, iterations := 0 }).iterations < MAX_ITERATIONS ∧
    ¬ ((bisect_loop (heat_flux exp s) MAX_ITERATIONS
          { left := 0, right := 1e9, iterations := 0 }).right
        - (bisect_loop (heat_flux exp s) MAX_ITERATIONS
          { left := 0, right := 1e9, iterations := 0 }).left > 1e-8) ∧
    (1e9 : α) / 2 ^ 57 < 1e-8 ∧ (1e-8 : α) < 1e9 / 2 ^ 56 := by
  have hex := bisect_loop_exit (heat_flux exp s) MAX_ITERATIONS
    { left := 0, right := 1e9, iterations := 0 } (by norm_num) (by norm_num)
    (by norm_num [MAX_ITERATIONS])
  have h57 : (1e9 : α) / 2 ^ 57 < 1e-8 := by norm_num
  refine ⟨?_, hex.1, ?_, ?_, h57, by norm_num⟩
  · intro n
    have hb := bisect_loop_bounds (heat_flux exp s) 0 1e9 n
      { left := 0, right := 1e9, iterations := 0 } ⟨le_refl _, by norm_num, le_refl _⟩
    rcases Nat.le_total n 57 with hn | hn
    · have hs := bisect_loop_steps (heat_flux exp s) n
        { left := 0, right := 1e9, iterations := 0 } (by norm_num) (by dsimp only; omega)
      rw [Nat.min_eq_left hn]
      simp only [Nat.zero_add] at hs
      exact ⟨hs.1, hs.2, hb.1, hb.2.1, hb.2.2⟩
    · have he := bisect_loop_exit (heat_flux exp s) n
        { left := 0, right := 1e9, iterations := 0 } (by norm_num) (by norm_num)
        (by dsimp only; omega)
      rw [Nat.min_eq_right hn]
      exact ⟨he.1, he.2, hb.1, hb.2.1, hb.2.2⟩
  · rw [hex.1]
    norm_num [MAX_ITERATIONS]
  · rw [hex.2]
    exact not_lt.mpr (le_of_lt h57)

/-- C20. The derived queries ignore the stored thickness at stored index 1:
on two stacks that are identical except for the stored thickness `d` of the
layer at stored index 1 (conceptual index 0), `heat_flux(d0)` is the same for
every `d0`, and so are the answers of Type 4 and of Type 5 (that layer's
compression coefficient `c` may differ as well). -/
theorem derived_queries_ignore_foam_thickness (exp : α → α) (s s' : ThermalJacketSystem α)
    (hother : ∀ i : Fin 7, i ≠ 1 → s'.layers i = s.layers i)
    (hk : (s'.layers 1).k = (s.layers 1).k) (hmu : (s'.layers 1).mu = (s.layers 1).mu)
    (hW : (s'.layers 1).W = (s.layers 1).W) (hC : (s'.layers 1).C = (s.layers 1).C)
    (hb : s'.beta = s.beta) :
    (∀ d0 : α, heat_flux exp s' d0 = heat_flux exp s d0) ∧
      query_type4_minimum_foam_thickness exp s' = query_type4_minimum_foam_thickness exp s ∧
      query_type5_feasibility_check exp s' = query_type5_feasibility_check exp s := by
  have h := heat_flux_congr exp s s' hother hk hmu hW hC hb
  refine ⟨fun d0 => by rw [h], ?_, ?_⟩
  · simp only [query_type4_minimum_foam_thickness, h]
  · simp only [query_type5_feasibility_check, h]

/-- Witness of C20: the sample against the sample with 0.08 for 0.05 as
the stored thickness at stored index 1. -/
theorem derived_queries_ignore_foam_thickness_witness :
    (∀ d0 : ℝ,
      heat_flux Real.exp
          { layers := Function.update (sampleLayers ℝ) 1 (Layer.new 0.08 0.03 0.15 0.25),
            beta := 0.5 } d0
        = heat_flux Real.exp (sampleSystem ℝ) d0) ∧
      query_type4_minimum_foam_thickness Real.exp
          { layers := Function.update (sampleLayers ℝ) 1 (Layer.new 0.08 0.03 0.15 0.25),
            beta := 0.5 }
        = query_type4_minimum_foam_thickness Real.exp (sampleSystem ℝ) ∧
      query_type5_feasibility_check Real.exp
          { layers := Function.update (sampleLayers ℝ) 1 (Layer.new 0.08 0.03 0.15 0.25),
            beta := 0.5 }
        = query_type5_feasibility_check Real.exp (sampleSystem ℝ) :=
  derived_queries_ignore_foam_thickness Real.exp (sampleSystem ℝ)
    { layers := Function.update (sampleLayers ℝ) 1 (Layer.new 0.08 0.03 0.15 0.25),
      beta := 0.5 }
    (fun i hi => by simp only [sampleSystem, Function.update_noteq hi])
    (by simp only [Function.update_same, sampleSystem, sampleLayers, Layer.new])
    (by simp only [Function.update_same, sampleSystem, sampleLayers, Layer.new])
    (by simp only [Function.update_same, sampleSystem, sampleLayers, Layer.new])
    (by simp only [Function.update_same, sampleSystem, sampleLayers, Layer.new])
    rfl

end Claims

end Jacket
